import Mathlib

/-!
# VulkanCompute helpers: embedding and verification

A shallow embedding of `computeInitializers.hpp`, `computeDeviceUtils.hpp` and
`computeTexture.hpp`.

* Vulkan handles, flag words and sizes are `Nat` (the unsigned `uint32_t` /
  `uint64_t` words of the C API), the C enums are `Int`.  The helpers only
  compare, `&`, `|` and `>>` these words, none of which can overflow.
* `vulkan.h` is an external header, not part of the repository: its enumerators
  and bit flags carry the numeric values of the Vulkan headers, its structures the
  fields of the Vulkan 1.0 headers, in header order.
* A pointer is an `Option`: `none` is `nullptr`; an untyped pointer is
  `Option Nat` (an address), a pointer to an array is `Option (List _)` with
  the array it points to, a pointer to an output cell is `Option _` with the
  current content of the cell.
* The driver is an arbitrary deterministic responder: the status and the output
  handle of a call are functions of the calls made so far and of the call itself.
  Every helper threads the list of driver calls issued so far.  The `vkGet*`
  entry points only read the state of the driver; they are answered from the
  calls issued so far and are not logged.
-/

set_option autoImplicit false

namespace sourav

/-! ## Base types and constants of `vulkan.h` -/

abbrev VkFlags := Nat
abbrev VkBool32 := Nat
abbrev VkDeviceSize := Nat
abbrev VkPhysicalDevice := Nat
abbrev VkDevice := Nat
abbrev VkQueue := Nat
abbrev VkCommandPool := Nat
abbrev VkCommandBuffer := Nat
abbrev VkFence := Nat
abbrev VkImage := Nat
abbrev VkResult := Int
abbrev VkStructureType := Int
abbrev VkImageLayout := Int
abbrev VkCommandBufferLevel := Int

def VK_TRUE : VkBool32 := 1
def VK_FALSE : VkBool32 := 0
def VK_NULL_HANDLE : Nat := 0
def VK_QUEUE_FAMILY_IGNORED : Nat := 4294967295

def VK_SUCCESS : VkResult := 0
def VK_NOT_READY : VkResult := 1
def VK_TIMEOUT : VkResult := 2
def VK_EVENT_SET : VkResult := 3
def VK_EVENT_RESET : VkResult := 4
def VK_INCOMPLETE : VkResult := 5
def VK_ERROR_OUT_OF_HOST_MEMORY : VkResult := -1
def VK_ERROR_OUT_OF_DEVICE_MEMORY : VkResult := -2
def VK_ERROR_INITIALIZATION_FAILED : VkResult := -3
def VK_ERROR_DEVICE_LOST : VkResult := -4
def VK_ERROR_MEMORY_MAP_FAILED : VkResult := -5
def VK_ERROR_LAYER_NOT_PRESENT : VkResult := -6
def VK_ERROR_EXTENSION_NOT_PRESENT : VkResult := -7
def VK_ERROR_FEATURE_NOT_PRESENT : VkResult := -8
def VK_ERROR_INCOMPATIBLE_DRIVER : VkResult := -9
def VK_ERROR_TOO_MANY_OBJECTS : VkResult := -10
def VK_ERROR_FORMAT_NOT_SUPPORTED : VkResult := -11
def VK_ERROR_SURFACE_LOST_KHR : VkResult := -1000000000
def VK_ERROR_NATIVE_WINDOW_IN_USE_KHR : VkResult := -1000000001
def VK_SUBOPTIMAL_KHR : VkResult := 1000001003
def VK_ERROR_OUT_OF_DATE_KHR : VkResult := -1000001004
def VK_ERROR_INCOMPATIBLE_DISPLAY_KHR : VkResult := -1000003001
def VK_ERROR_VALIDATION_FAILED_EXT : VkResult := -1000011001
def VK_ERROR_INVALID_SHADER_NV : VkResult := -1000012000

def VK_STRUCTURE_TYPE_SUBMIT_INFO : VkStructureType := 4
def VK_STRUCTURE_TYPE_MEMORY_ALLOCATE_INFO : VkStructureType := 5
def VK_STRUCTURE_TYPE_FENCE_CREATE_INFO : VkStructureType := 8
def VK_STRUCTURE_TYPE_BUFFER_CREATE_INFO : VkStructureType := 12
def VK_STRUCTURE_TYPE_IMAGE_CREATE_INFO : VkStructureType := 14
def VK_STRUCTURE_TYPE_COMMAND_BUFFER_ALLOCATE_INFO : VkStructureType := 40
def VK_STRUCTURE_TYPE_COMMAND_BUFFER_BEGIN_INFO : VkStructureType := 42
def VK_STRUCTURE_TYPE_IMAGE_MEMORY_BARRIER : VkStructureType := 45

def VK_IMAGE_LAYOUT_UNDEFINED : VkImageLayout := 0
def VK_IMAGE_LAYOUT_GENERAL : VkImageLayout := 1
def VK_IMAGE_LAYOUT_COLOR_ATTACHMENT_OPTIMAL : VkImageLayout := 2
def VK_IMAGE_LAYOUT_DEPTH_STENCIL_ATTACHMENT_OPTIMAL : VkImageLayout := 3
def VK_IMAGE_LAYOUT_DEPTH_STENCIL_READ_ONLY_OPTIMAL : VkImageLayout := 4
def VK_IMAGE_LAYOUT_SHADER_READ_ONLY_OPTIMAL : VkImageLayout := 5
def VK_IMAGE_LAYOUT_TRANSFER_SRC_OPTIMAL : VkImageLayout := 6
def VK_IMAGE_LAYOUT_TRANSFER_DST_OPTIMAL : VkImageLayout := 7
def VK_IMAGE_LAYOUT_PREINITIALIZED : VkImageLayout := 8

def VK_ACCESS_SHADER_READ_BIT : VkFlags := 0x00000020
def VK_ACCESS_COLOR_ATTACHMENT_WRITE_BIT : VkFlags := 0x00000100
def VK_ACCESS_DEPTH_STENCIL_ATTACHMENT_WRITE_BIT : VkFlags := 0x00000400
def VK_ACCESS_TRANSFER_READ_BIT : VkFlags := 0x00000800
def VK_ACCESS_TRANSFER_WRITE_BIT : VkFlags := 0x00001000
def VK_ACCESS_HOST_WRITE_BIT : VkFlags := 0x00004000

def VK_PIPELINE_STAGE_ALL_COMMANDS_BIT : VkFlags := 0x00010000
def VK_COMMAND_BUFFER_LEVEL_PRIMARY : VkCommandBufferLevel := 0

/-- Custom define of `computeInitializers.hpp` (line 16). -/
def VK_FLAGS_NONE : VkFlags := 0
/-- Default fence timeout in nanoseconds (`computeInitializers.hpp`, line 18). -/
def DEFAULT_FENCE_TIMEOUT : Nat := 100000000000

/-! Handles, enumerators and flags used by `computeTexture.hpp`. -/

abbrev VkBuffer := Nat
abbrev VkDeviceMemory := Nat
abbrev VkImageView := Nat
abbrev VkSampler := Nat
abbrev VkFormat := Int
abbrev VkFilter := Int

def VK_STRUCTURE_TYPE_IMAGE_VIEW_CREATE_INFO : VkStructureType := 15
def VK_STRUCTURE_TYPE_SAMPLER_CREATE_INFO : VkStructureType := 31

def VK_MEMORY_PROPERTY_DEVICE_LOCAL_BIT : VkFlags := 0x00000001
def VK_MEMORY_PROPERTY_HOST_VISIBLE_BIT : VkFlags := 0x00000002
def VK_MEMORY_PROPERTY_HOST_COHERENT_BIT : VkFlags := 0x00000004

def VK_BUFFER_USAGE_TRANSFER_SRC_BIT : VkFlags := 0x00000001
def VK_IMAGE_USAGE_TRANSFER_DST_BIT : VkFlags := 0x00000002
def VK_IMAGE_USAGE_SAMPLED_BIT : VkFlags := 0x00000004
def VK_IMAGE_ASPECT_COLOR_BIT : VkFlags := 0x00000001

def VK_SHARING_MODE_EXCLUSIVE : Int := 0
def VK_IMAGE_TYPE_2D : Int := 1
def VK_SAMPLE_COUNT_1_BIT : Int := 1
def VK_IMAGE_TILING_OPTIMAL : Int := 0
def VK_IMAGE_VIEW_TYPE_2D : Int := 1
def VK_FILTER_LINEAR : VkFilter := 1
def VK_SAMPLER_MIPMAP_MODE_LINEAR : Int := 1
def VK_SAMPLER_ADDRESS_MODE_REPEAT : Int := 0
def VK_COMPARE_OP_NEVER : Int := 0

/-! ## Structures of `vulkan.h` -/

structure VkExtent3D where
  width : Nat
  height : Nat
  depth : Nat
  deriving DecidableEq, Repr

structure VkImageSubresourceRange where
  aspectMask : VkFlags
  baseMipLevel : Nat
  levelCount : Nat
  baseArrayLayer : Nat
  layerCount : Nat
  deriving DecidableEq, Repr

structure VkMemoryAllocateInfo where
  sType : VkStructureType
  pNext : Option Nat
  allocationSize : VkDeviceSize
  memoryTypeIndex : Nat
  deriving DecidableEq, Repr

structure VkCommandBufferAllocateInfo where
  sType : VkStructureType
  pNext : Option Nat
  commandPool : VkCommandPool
  level : VkCommandBufferLevel
  commandBufferCount : Nat
  deriving DecidableEq, Repr

structure VkCommandBufferBeginInfo where
  sType : VkStructureType
  pNext : Option Nat
  flags : VkFlags
  pInheritanceInfo : Option Nat
  deriving DecidableEq, Repr

structure VkBufferCreateInfo where
  sType : VkStructureType
  pNext : Option Nat
  flags : VkFlags
  size : VkDeviceSize
  usage : VkFlags
  sharingMode : Int
  queueFamilyIndexCount : Nat
  pQueueFamilyIndices : Option (List Nat)
  deriving DecidableEq, Repr

structure VkImageCreateInfo where
  sType : VkStructureType
  pNext : Option Nat
  flags : VkFlags
  imageType : Int
  format : Int
  extent : VkExtent3D
  mipLevels : Nat
  arrayLayers : Nat
  samples : Int
  tiling : Int
  usage : VkFlags
  sharingMode : Int
  queueFamilyIndexCount : Nat
  pQueueFamilyIndices : Option (List Nat)
  initialLayout : VkImageLayout
  deriving DecidableEq, Repr

structure VkMemoryBarrier where
  sType : VkStructureType
  pNext : Option Nat
  srcAccessMask : VkFlags
  dstAccessMask : VkFlags
  deriving DecidableEq, Repr

structure VkBufferMemoryBarrier where
  sType : VkStructureType
  pNext : Option Nat
  srcAccessMask : VkFlags
  dstAccessMask : VkFlags
  srcQueueFamilyIndex : Nat
  dstQueueFamilyIndex : Nat
  buffer : Nat
  offset : VkDeviceSize
  size : VkDeviceSize
  deriving DecidableEq, Repr

structure VkImageMemoryBarrier where
  sType : VkStructureType
  pNext : Option Nat
  srcAccessMask : VkFlags
  dstAccessMask : VkFlags
  oldLayout : VkImageLayout
  newLayout : VkImageLayout
  srcQueueFamilyIndex : Nat
  dstQueueFamilyIndex : Nat
  image : VkImage
  subresourceRange : VkImageSubresourceRange
  deriving DecidableEq, Repr

structure VkSubmitInfo where
  sType : VkStructureType
  pNext : Option Nat
  waitSemaphoreCount : Nat
  pWaitSemaphores : Option (List Nat)
  pWaitDstStageMask : Option (List VkFlags)
  commandBufferCount : Nat
  pCommandBuffers : Option (List VkCommandBuffer)
  signalSemaphoreCount : Nat
  pSignalSemaphores : Option (List Nat)
  deriving DecidableEq, Repr

structure VkFenceCreateInfo where
  sType : VkStructureType
  pNext : Option Nat
  flags : VkFlags
  deriving DecidableEq, Repr

/-- One entry of `VkPhysicalDeviceMemoryProperties::memoryTypes`. -/
structure VkMemoryType where
  propertyFlags : VkFlags
  heapIndex : Nat
  deriving DecidableEq, Repr

/-- The part of `VkPhysicalDeviceMemoryProperties` that `getMemoryType` reads:
the count and the `memoryTypes` array, indexed by position. -/
structure VkPhysicalDeviceMemoryProperties where
  memoryTypeCount : Nat
  memoryTypes : Nat → VkMemoryType

structure VkMemoryRequirements where
  size : VkDeviceSize
  alignment : VkDeviceSize
  memoryTypeBits : Nat
  deriving DecidableEq, Repr

structure VkImageSubresourceLayers where
  aspectMask : VkFlags
  mipLevel : Nat
  baseArrayLayer : Nat
  layerCount : Nat
  deriving DecidableEq, Repr

structure VkOffset3D where
  x : Int
  y : Int
  z : Int
  deriving DecidableEq, Repr

structure VkBufferImageCopy where
  bufferOffset : VkDeviceSize
  bufferRowLength : Nat
  bufferImageHeight : Nat
  imageSubresource : VkImageSubresourceLayers
  imageOffset : VkOffset3D
  imageExtent : VkExtent3D
  deriving DecidableEq, Repr

/-- The `float` fields hold the exact value of the literal stored in them. -/
structure VkSamplerCreateInfo where
  sType : VkStructureType
  pNext : Option Nat
  flags : VkFlags
  magFilter : VkFilter
  minFilter : VkFilter
  mipmapMode : Int
  addressModeU : Int
  addressModeV : Int
  addressModeW : Int
  mipLodBias : ℚ
  anisotropyEnable : VkBool32
  maxAnisotropy : ℚ
  compareEnable : VkBool32
  compareOp : Int
  minLod : ℚ
  maxLod : ℚ
  borderColor : Int
  unnormalizedCoordinates : VkBool32
  deriving DecidableEq, Repr

structure VkComponentMapping where
  r : Int
  g : Int
  b : Int
  a : Int
  deriving DecidableEq, Repr

structure VkImageViewCreateInfo where
  sType : VkStructureType
  pNext : Option Nat
  flags : VkFlags
  image : VkImage
  viewType : Int
  format : VkFormat
  components : VkComponentMapping
  subresourceRange : VkImageSubresourceRange
  deriving DecidableEq, Repr

structure VkDescriptorImageInfo where
  sampler : VkSampler
  imageView : VkImageView
  imageLayout : VkImageLayout
  deriving DecidableEq, Repr

/-! ## `computeInitializers.hpp`: structure initializers -/

namespace initializers

def memoryAllocateInfo : VkMemoryAllocateInfo :=
  let memAllocInfo : VkMemoryAllocateInfo :=
    { sType := 0, pNext := none, allocationSize := 0, memoryTypeIndex := 0 }
  { memAllocInfo with sType := VK_STRUCTURE_TYPE_MEMORY_ALLOCATE_INFO }

def commandBufferAllocateInfo (commandPool : VkCommandPool) (level : VkCommandBufferLevel)
    (bufferCount : Nat) : VkCommandBufferAllocateInfo :=
  let commandBufferAllocateInfo : VkCommandBufferAllocateInfo :=
    { sType := 0, pNext := none, commandPool := 0, level := 0, commandBufferCount := 0 }
  { commandBufferAllocateInfo with
    sType := VK_STRUCTURE_TYPE_COMMAND_BUFFER_ALLOCATE_INFO
    commandPool := commandPool
    level := level
    commandBufferCount := bufferCount }

def commandBufferBeginInfo : VkCommandBufferBeginInfo :=
  let cmdBufferBeginInfo : VkCommandBufferBeginInfo :=
    { sType := 0, pNext := none, flags := 0, pInheritanceInfo := none }
  { cmdBufferBeginInfo with sType := VK_STRUCTURE_TYPE_COMMAND_BUFFER_BEGIN_INFO }

def bufferCreateInfo : VkBufferCreateInfo :=
  let bufCreateInfo : VkBufferCreateInfo :=
    { sType := 0, pNext := none, flags := 0, size := 0, usage := 0, sharingMode := 0,
      queueFamilyIndexCount := 0, pQueueFamilyIndices := none }
  { bufCreateInfo with sType := VK_STRUCTURE_TYPE_BUFFER_CREATE_INFO }

def imageCreateInfo : VkImageCreateInfo :=
  let imageCreateInfo : VkImageCreateInfo :=
    { sType := 0, pNext := none, flags := 0, imageType := 0, format := 0,
      extent := { width := 0, height := 0, depth := 0 }, mipLevels := 0, arrayLayers := 0,
      samples := 0, tiling := 0, usage := 0, sharingMode := 0, queueFamilyIndexCount := 0,
      pQueueFamilyIndices := none, initialLayout := 0 }
  { imageCreateInfo with sType := VK_STRUCTURE_TYPE_IMAGE_CREATE_INFO }

/-- Initialize an image memory barrier with no image transfer ownership. -/
def imageMemoryBarrier : VkImageMemoryBarrier :=
  let imageMemoryBarrier : VkImageMemoryBarrier :=
    { sType := 0, pNext := none, srcAccessMask := 0, dstAccessMask := 0, oldLayout := 0,
      newLayout := 0, srcQueueFamilyIndex := 0, dstQueueFamilyIndex := 0, image := 0,
      subresourceRange := { aspectMask := 0, baseMipLevel := 0, levelCount := 0,
                            baseArrayLayer := 0, layerCount := 0 } }
  { imageMemoryBarrier with
    sType := VK_STRUCTURE_TYPE_IMAGE_MEMORY_BARRIER
    srcQueueFamilyIndex := VK_QUEUE_FAMILY_IGNORED
    dstQueueFamilyIndex := VK_QUEUE_FAMILY_IGNORED }

def submitInfo : VkSubmitInfo :=
  let submitInfo : VkSubmitInfo :=
    { sType := 0, pNext := none, waitSemaphoreCount := 0, pWaitSemaphores := none,
      pWaitDstStageMask := none, commandBufferCount := 0, pCommandBuffers := none,
      signalSemaphoreCount := 0, pSignalSemaphores := none }
  { submitInfo with sType := VK_STRUCTURE_TYPE_SUBMIT_INFO }

def fenceCreateInfo (flags : VkFlags) : VkFenceCreateInfo :=
  let fenceCreateInfo : VkFenceCreateInfo := { sType := 0, pNext := none, flags := 0 }
  { fenceCreateInfo with sType := VK_STRUCTURE_TYPE_FENCE_CREATE_INFO, flags := flags }

end initializers

/-! ## The driver -/

/-- The driver entry points the helpers call, with the arguments they pass.
A `count, pointer` pair of the C API is a count and the array pointed to.
`memcpy`, the host copy into the mapped staging memory, is logged with them to
keep its place in the sequence. -/
inductive DriverCall where
  | vkAllocateCommandBuffers (device : VkDevice) (pAllocateInfo : VkCommandBufferAllocateInfo)
  | vkBeginCommandBuffer (commandBuffer : VkCommandBuffer) (pBeginInfo : VkCommandBufferBeginInfo)
  | vkEndCommandBuffer (commandBuffer : VkCommandBuffer)
  | vkCreateFence (device : VkDevice) (pCreateInfo : VkFenceCreateInfo) (pAllocator : Option Nat)
  | vkQueueSubmit (queue : VkQueue) (submitCount : Nat) (pSubmits : Option (List VkSubmitInfo))
      (fence : VkFence)
  | vkWaitForFences (device : VkDevice) (fenceCount : Nat) (pFences : Option (List VkFence))
      (waitAll : VkBool32) (timeout : Nat)
  | vkDestroyFence (device : VkDevice) (fence : VkFence) (pAllocator : Option Nat)
  | vkFreeCommandBuffers (device : VkDevice) (commandPool : VkCommandPool)
      (commandBufferCount : Nat) (pCommandBuffers : Option (List VkCommandBuffer))
  | vkCmdPipelineBarrier (commandBuffer : VkCommandBuffer) (srcStageMask : VkFlags)
      (dstStageMask : VkFlags) (dependencyFlags : VkFlags)
      (memoryBarrierCount : Nat) (pMemoryBarriers : Option (List VkMemoryBarrier))
      (bufferMemoryBarrierCount : Nat) (pBufferMemoryBarriers : Option (List VkBufferMemoryBarrier))
      (imageMemoryBarrierCount : Nat) (pImageMemoryBarriers : Option (List VkImageMemoryBarrier))
  | vkCreateBuffer (device : VkDevice) (pCreateInfo : VkBufferCreateInfo)
      (pAllocator : Option Nat)
  | vkAllocateMemory (device : VkDevice) (pAllocateInfo : VkMemoryAllocateInfo)
      (pAllocator : Option Nat)
  | vkBindBufferMemory (device : VkDevice) (buffer : VkBuffer) (memory : VkDeviceMemory)
      (memoryOffset : VkDeviceSize)
  | vkMapMemory (device : VkDevice) (memory : VkDeviceMemory) (offset : VkDeviceSize)
      (size : VkDeviceSize) (flags : VkFlags)
  | memcpy (dest : Nat) (src : Option Nat) (count : Nat)
  | vkUnmapMemory (device : VkDevice) (memory : VkDeviceMemory)
  | vkCreateImage (device : VkDevice) (pCreateInfo : VkImageCreateInfo)
      (pAllocator : Option Nat)
  | vkBindImageMemory (device : VkDevice) (image : VkImage) (memory : VkDeviceMemory)
      (memoryOffset : VkDeviceSize)
  | vkCmdCopyBufferToImage (commandBuffer : VkCommandBuffer) (srcBuffer : VkBuffer)
      (dstImage : VkImage) (dstImageLayout : VkImageLayout)
      (regionCount : Nat) (pRegions : Option (List VkBufferImageCopy))
  | vkDestroyBuffer (device : VkDevice) (buffer : VkBuffer) (pAllocator : Option Nat)
  | vkFreeMemory (device : VkDevice) (memory : VkDeviceMemory) (pAllocator : Option Nat)
  | vkCreateSampler (device : VkDevice) (pCreateInfo : VkSamplerCreateInfo)
      (pAllocator : Option Nat)
  | vkCreateImageView (device : VkDevice) (pCreateInfo : VkImageViewCreateInfo)
      (pAllocator : Option Nat)
  deriving DecidableEq, Repr

/-- An arbitrary deterministic driver: the status a call returns and the handle it
writes to its output parameter, given the calls issued before it. -/
structure Driver where
  result : List DriverCall → DriverCall → VkResult
  handle : List DriverCall → DriverCall → Nat

/-- A computation that issues driver calls: from the calls issued so far to its
outcome (`Except.error` when the process is aborted) and the calls issued after it. -/
def DriverM (α : Type) : Type := List DriverCall → Except String α × List DriverCall

/-- A step that issues no driver call. -/
def DriverM.lift {α : Type} (r : Except String α) : DriverM α :=
  fun issued => (r, issued)

/-- Sequencing: an aborted first part skips the second. -/
def DriverM.andThen {α β : Type} (m : DriverM α) (f : α → DriverM β) : DriverM β :=
  fun issued =>
    match m issued with
    | (Except.ok a, issued1) => f a issued1
    | (Except.error e, issued1) => (Except.error e, issued1)

instance : Monad DriverM where
  pure a := DriverM.lift (Except.ok a)
  bind := DriverM.andThen

/-- Issue one driver call: it is appended to the calls issued, and the driver
answers with a status and an output handle. -/
def Driver.call (driver : Driver) (c : DriverCall) : DriverM (VkResult × Nat) :=
  fun issued => (Except.ok (driver.result issued c, driver.handle issued c), issued ++ [c])

/-- The `assert` of `<cassert>`, as compiled when `NDEBUG` is not defined (the
sources never define it): a false expression aborts the process. -/
def assert (expression : Bool) (diagnostic : String) : DriverM Unit :=
  if expression then pure () else DriverM.lift (Except.error diagnostic)

namespace utils

/-- `errorString` (lines 9-41): a `switch` whose `STR(r)` cases are
`case VK_r: return "r"`. -/
def errorString (errorCode : VkResult) : String :=
  if errorCode = VK_NOT_READY then "NOT_READY"
  else if errorCode = VK_TIMEOUT then "TIMEOUT"
  else if errorCode = VK_EVENT_SET then "EVENT_SET"
  else if errorCode = VK_EVENT_RESET then "EVENT_RESET"
  else if errorCode = VK_INCOMPLETE then "INCOMPLETE"
  else if errorCode = VK_ERROR_OUT_OF_HOST_MEMORY then "ERROR_OUT_OF_HOST_MEMORY"
  else if errorCode = VK_ERROR_OUT_OF_DEVICE_MEMORY then "ERROR_OUT_OF_DEVICE_MEMORY"
  else if errorCode = VK_ERROR_INITIALIZATION_FAILED then "ERROR_INITIALIZATION_FAILED"
  else if errorCode = VK_ERROR_DEVICE_LOST then "ERROR_DEVICE_LOST"
  else if errorCode = VK_ERROR_MEMORY_MAP_FAILED then "ERROR_MEMORY_MAP_FAILED"
  else if errorCode = VK_ERROR_LAYER_NOT_PRESENT then "ERROR_LAYER_NOT_PRESENT"
  else if errorCode = VK_ERROR_EXTENSION_NOT_PRESENT then "ERROR_EXTENSION_NOT_PRESENT"
  else if errorCode = VK_ERROR_FEATURE_NOT_PRESENT then "ERROR_FEATURE_NOT_PRESENT"
  else if errorCode = VK_ERROR_INCOMPATIBLE_DRIVER then "ERROR_INCOMPATIBLE_DRIVER"
  else if errorCode = VK_ERROR_TOO_MANY_OBJECTS then "ERROR_TOO_MANY_OBJECTS"
  else if errorCode = VK_ERROR_FORMAT_NOT_SUPPORTED then "ERROR_FORMAT_NOT_SUPPORTED"
  else if errorCode = VK_ERROR_SURFACE_LOST_KHR then "ERROR_SURFACE_LOST_KHR"
  else if errorCode = VK_ERROR_NATIVE_WINDOW_IN_USE_KHR then "ERROR_NATIVE_WINDOW_IN_USE_KHR"
  else if errorCode = VK_SUBOPTIMAL_KHR then "SUBOPTIMAL_KHR"
  else if errorCode = VK_ERROR_OUT_OF_DATE_KHR then "ERROR_OUT_OF_DATE_KHR"
  else if errorCode = VK_ERROR_INCOMPATIBLE_DISPLAY_KHR then "ERROR_INCOMPATIBLE_DISPLAY_KHR"
  else if errorCode = VK_ERROR_VALIDATION_FAILED_EXT then "ERROR_VALIDATION_FAILED_EXT"
  else if errorCode = VK_ERROR_INVALID_SHADER_NV then "ERROR_INVALID_SHADER_NV"
  else "UNKNOWN_ERROR"

/-- The 23 case labels of the `switch` of `errorString`, in source order. -/
def errorStringCases : List VkResult :=
  [VK_NOT_READY, VK_TIMEOUT, VK_EVENT_SET, VK_EVENT_RESET, VK_INCOMPLETE,
   VK_ERROR_OUT_OF_HOST_MEMORY, VK_ERROR_OUT_OF_DEVICE_MEMORY, VK_ERROR_INITIALIZATION_FAILED,
   VK_ERROR_DEVICE_LOST, VK_ERROR_MEMORY_MAP_FAILED, VK_ERROR_LAYER_NOT_PRESENT,
   VK_ERROR_EXTENSION_NOT_PRESENT, VK_ERROR_FEATURE_NOT_PRESENT, VK_ERROR_INCOMPATIBLE_DRIVER,
   VK_ERROR_TOO_MANY_OBJECTS, VK_ERROR_FORMAT_NOT_SUPPORTED, VK_ERROR_SURFACE_LOST_KHR,
   VK_ERROR_NATIVE_WINDOW_IN_USE_KHR, VK_SUBOPTIMAL_KHR, VK_ERROR_OUT_OF_DATE_KHR,
   VK_ERROR_INCOMPATIBLE_DISPLAY_KHR, VK_ERROR_VALIDATION_FAILED_EXT, VK_ERROR_INVALID_SHADER_NV]

end utils

/-- The macro `ST_CHECK_RESULT` (`computeInitializers.hpp`, lines 5-13), applied to
the status `res` of the wrapped call: on a status other than `VK_SUCCESS` it
prints the diagnostic (here without file and line) and asserts `res == VK_SUCCESS`. -/
def ST_CHECK_RESULT (res : VkResult) : DriverM Unit :=
  if res ≠ VK_SUCCESS then
    assert (decide (res = VK_SUCCESS)) ("Fatal : VkResult is " ++ utils.errorString res)
  else
    pure ()

namespace utils

/-- `createCommandBuffer` (lines 44-55). -/
def createCommandBuffer (driver : Driver) (level : VkCommandBufferLevel) (pool : VkCommandPool)
    (logicalDevice : VkDevice) : DriverM VkCommandBuffer := do
  let cmdBufAllocateInfo := initializers.commandBufferAllocateInfo pool level 1
  let (res, cmdBuffer) ← driver.call (.vkAllocateCommandBuffers logicalDevice cmdBufAllocateInfo)
  ST_CHECK_RESULT res
  let cmdBufInfo := initializers.commandBufferBeginInfo
  let (res, _) ← driver.call (.vkBeginCommandBuffer cmdBuffer cmdBufInfo)
  ST_CHECK_RESULT res
  return cmdBuffer

/-- The `for` loop of `getMemoryType` (lines 75-89).  The first argument is the
number of iterations still to run (`memoryTypeCount - i`), the second the loop
counter `i`, the third the current, already shifted, value of `typeBits`.
`some i` is the `return i` inside the loop, `none` is falling out of the loop. -/
def getMemoryTypeLoop (memoryProperties : VkPhysicalDeviceMemoryProperties)
    (properties : VkFlags) : Nat → Nat → Nat → Option Nat
  | 0, _, _ => none
  | n + 1, i, typeBits =>
    if typeBits &&& 1 = 1 then
      if (memoryProperties.memoryTypes i).propertyFlags &&& properties = properties then
        some i
      else
        getMemoryTypeLoop memoryProperties properties n (i + 1) (typeBits >>> 1)
    else
      getMemoryTypeLoop memoryProperties properties n (i + 1) (typeBits >>> 1)

/-- `getMemoryType` (lines 69-100).  `vkGetPhysicalDeviceMemoryProperties` is the
driver query that fills `memoryProperties`; `memTypeFound` is the optional output
cell.  The result is `Except.error msg` when the function throws, otherwise the
returned index together with the final content of the `memTypeFound` cell
(`none` when the pointer is null); the `true` and `false` stored in the
`VkBool32` cell are 1 and 0. -/
def getMemoryType
    (vkGetPhysicalDeviceMemoryProperties : VkPhysicalDevice → VkPhysicalDeviceMemoryProperties)
    (physicalDevice : VkPhysicalDevice) (typeBits : Nat) (properties : VkFlags)
    (memTypeFound : Option VkBool32) : Except String (Nat × Option VkBool32) :=
  let memoryProperties := vkGetPhysicalDeviceMemoryProperties physicalDevice
  match getMemoryTypeLoop memoryProperties properties memoryProperties.memoryTypeCount 0 typeBits with
  | some i =>
    match memTypeFound with
    | some _ => Except.ok (i, some VK_TRUE)
    | none => Except.ok (i, none)
  | none =>
    match memTypeFound with
    | some _ => Except.ok (0, some VK_FALSE)
    | none => Except.error "Could not find a matching memory type"

/-- Index `i` is a matching memory type: it is inside the table, bit `i` of
`typeBits` is set and the type has all the requested property bits. -/
def MemoryTypeMatches (memoryProperties : VkPhysicalDeviceMemoryProperties)
    (typeBits : Nat) (properties : VkFlags) (i : Nat) : Prop :=
  i < memoryProperties.memoryTypeCount ∧ typeBits.testBit i = true ∧
    (memoryProperties.memoryTypes i).propertyFlags &&& properties = properties

instance (memoryProperties : VkPhysicalDeviceMemoryProperties) (typeBits : Nat)
    (properties : VkFlags) (i : Nat) :
    Decidable (MemoryTypeMatches memoryProperties typeBits properties i) := by
  unfold MemoryTypeMatches; infer_instance

/-- The `switch (oldImageLayout)` of `setImageLayout` (lines 126-174), as the
update it makes to the local `imageMemoryBarrier`. -/
def setImageLayoutSourceSwitch (imageMemoryBarrier : VkImageMemoryBarrier)
    (oldImageLayout : VkImageLayout) : VkImageMemoryBarrier :=
  if oldImageLayout = VK_IMAGE_LAYOUT_UNDEFINED then
    { imageMemoryBarrier with srcAccessMask := 0 }
  else if oldImageLayout = VK_IMAGE_LAYOUT_PREINITIALIZED then
    { imageMemoryBarrier with srcAccessMask := VK_ACCESS_HOST_WRITE_BIT }
  else if oldImageLayout = VK_IMAGE_LAYOUT_COLOR_ATTACHMENT_OPTIMAL then
    { imageMemoryBarrier with srcAccessMask := VK_ACCESS_COLOR_ATTACHMENT_WRITE_BIT }
  else if oldImageLayout = VK_IMAGE_LAYOUT_DEPTH_STENCIL_ATTACHMENT_OPTIMAL then
    { imageMemoryBarrier with srcAccessMask := VK_ACCESS_DEPTH_STENCIL_ATTACHMENT_WRITE_BIT }
  else if oldImageLayout = VK_IMAGE_LAYOUT_TRANSFER_SRC_OPTIMAL then
    { imageMemoryBarrier with srcAccessMask := VK_ACCESS_TRANSFER_READ_BIT }
  else if oldImageLayout = VK_IMAGE_LAYOUT_TRANSFER_DST_OPTIMAL then
    { imageMemoryBarrier with srcAccessMask := VK_ACCESS_TRANSFER_WRITE_BIT }
  else if oldImageLayout = VK_IMAGE_LAYOUT_SHADER_READ_ONLY_OPTIMAL then
    { imageMemoryBarrier with srcAccessMask := VK_ACCESS_SHADER_READ_BIT }
  else
    -- Other source layouts aren't handled (yet)
    imageMemoryBarrier

/-- The `switch (newImageLayout)` of `setImageLayout` (lines 178-216), as the
update it makes to the local `imageMemoryBarrier`. -/
def setImageLayoutTargetSwitch (imageMemoryBarrier : VkImageMemoryBarrier)
    (newImageLayout : VkImageLayout) : VkImageMemoryBarrier :=
  if newImageLayout = VK_IMAGE_LAYOUT_TRANSFER_DST_OPTIMAL then
    { imageMemoryBarrier with dstAccessMask := VK_ACCESS_TRANSFER_WRITE_BIT }
  else if newImageLayout = VK_IMAGE_LAYOUT_TRANSFER_SRC_OPTIMAL then
    { imageMemoryBarrier with dstAccessMask := VK_ACCESS_TRANSFER_READ_BIT }
  else if newImageLayout = VK_IMAGE_LAYOUT_COLOR_ATTACHMENT_OPTIMAL then
    { imageMemoryBarrier with dstAccessMask := VK_ACCESS_COLOR_ATTACHMENT_WRITE_BIT }
  else if newImageLayout = VK_IMAGE_LAYOUT_DEPTH_STENCIL_ATTACHMENT_OPTIMAL then
    { imageMemoryBarrier with
      dstAccessMask := imageMemoryBarrier.dstAccessMask |||
        VK_ACCESS_DEPTH_STENCIL_ATTACHMENT_WRITE_BIT }
  else if newImageLayout = VK_IMAGE_LAYOUT_SHADER_READ_ONLY_OPTIMAL then
    { imageMemoryBarrier with
      srcAccessMask :=
        if imageMemoryBarrier.srcAccessMask = 0 then
          VK_ACCESS_HOST_WRITE_BIT ||| VK_ACCESS_TRANSFER_WRITE_BIT
        else
          imageMemoryBarrier.srcAccessMask
      dstAccessMask := VK_ACCESS_SHADER_READ_BIT }
  else
    -- Other target layouts aren't handled (yet)
    imageMemoryBarrier

/-- The barrier `setImageLayout` has built when it reaches the call of
`vkCmdPipelineBarrier` (lines 117-216): the initializer, the four assignments
and the two `switch` statements. -/
def setImageLayoutBarrier (image : VkImage) (oldImageLayout newImageLayout : VkImageLayout)
    (subresourceRange : VkImageSubresourceRange) : VkImageMemoryBarrier :=
  let imageMemoryBarrier := initializers.imageMemoryBarrier
  let imageMemoryBarrier := { imageMemoryBarrier with
    oldLayout := oldImageLayout
    newLayout := newImageLayout
    image := image
    subresourceRange := subresourceRange }
  let imageMemoryBarrier := setImageLayoutSourceSwitch imageMemoryBarrier oldImageLayout
  setImageLayoutTargetSwitch imageMemoryBarrier newImageLayout

/-- `setImageLayout` (lines 107-227): build the barrier and put it inside the
command buffer.  The source defaults `srcStageMask` and `dstStageMask` to
`VK_PIPELINE_STAGE_ALL_COMMANDS_BIT`; here a caller passes them. -/
def setImageLayout (driver : Driver) (cmdbuffer : VkCommandBuffer) (image : VkImage)
    (oldImageLayout newImageLayout : VkImageLayout) (subresourceRange : VkImageSubresourceRange)
    (srcStageMask dstStageMask : VkFlags) : DriverM Unit := do
  let imageMemoryBarrier :=
    setImageLayoutBarrier image oldImageLayout newImageLayout subresourceRange
  let _ ← driver.call (.vkCmdPipelineBarrier cmdbuffer srcStageMask dstStageMask 0
    0 none 0 none 1 (some [imageMemoryBarrier]))
  pure ()

/-- `flushCommandBuffer` (lines 230-255). -/
def flushCommandBuffer (driver : Driver) (logicalDevice : VkDevice)
    (commandBuffer : VkCommandBuffer) (queue : VkQueue) (pool : VkCommandPool) : DriverM Unit :=
  if commandBuffer = VK_NULL_HANDLE then
    pure ()
  else do
    let (res, _) ← driver.call (.vkEndCommandBuffer commandBuffer)
    ST_CHECK_RESULT res
    let submitInfo := initializers.submitInfo
    let submitInfo := { submitInfo with
      commandBufferCount := 1
      pCommandBuffers := some [commandBuffer] }
    -- Create fence to ensure that the command buffer has finished executing
    let fenceInfo := initializers.fenceCreateInfo VK_FLAGS_NONE
    let (res, fence) ← driver.call (.vkCreateFence logicalDevice fenceInfo none)
    ST_CHECK_RESULT res
    -- Submit to the queue
    let (res, _) ← driver.call (.vkQueueSubmit queue 1 (some [submitInfo]) fence)
    ST_CHECK_RESULT res
    -- Wait for the fence to signal that command buffer has finished executing
    let (res, _) ← driver.call
      (.vkWaitForFences logicalDevice 1 (some [fence]) VK_TRUE DEFAULT_FENCE_TIMEOUT)
    ST_CHECK_RESULT res
    let _ ← driver.call (.vkDestroyFence logicalDevice fence none)
    let _ ← driver.call (.vkFreeCommandBuffers logicalDevice pool 1 (some [commandBuffer]))
    pure ()

end utils

/-! ## `computeTexture.hpp` -/

/-- The query entry points of the driver, which only read its state: their
answers, the memory requirements given the calls issued before the query. -/
structure DriverQueries where
  vkGetPhysicalDeviceMemoryProperties : VkPhysicalDevice → VkPhysicalDeviceMemoryProperties
  vkGetBufferMemoryRequirements : List DriverCall → VkDevice → VkBuffer → VkMemoryRequirements
  vkGetImageMemoryRequirements : List DriverCall → VkDevice → VkImage → VkMemoryRequirements

/-- Ask a query at the current point of the sequence of driver calls. -/
def DriverM.query {α : Type} (answer : List DriverCall → α) : DriverM α :=
  fun issued => (Except.ok (answer issued), issued)

namespace Texture

/-- The data members of the class `computeTexture` (lines 12-20). -/
structure computeTexture where
  image : VkImage
  imageLayout : VkImageLayout
  deviceMemory : VkDeviceMemory
  view : VkImageView
  width : Nat
  height : Nat
  mipLevels : Nat
  layerCount : Nat
  descriptor : VkDescriptorImageInfo
  sampler : VkSampler
  deriving DecidableEq, Repr

/-- `computeTexture::fromBuffer` (lines 37-204).  `self` is the object the method
is called on, the result the object when the method returns.  An exception
thrown by `getMemoryType` leaves the method like an abort.  The source defaults
`filter`, `imageUsageFlags` and `imageLayout` to `VK_FILTER_LINEAR`,
`VK_IMAGE_USAGE_SAMPLED_BIT` and `VK_IMAGE_LAYOUT_SHADER_READ_ONLY_OPTIMAL`; here
a caller passes them.  An assignment to a local or to a member is a `pure` step
of the sequence. -/
def computeTexture.fromBuffer (driver : Driver) (queries : DriverQueries)
    (self : computeTexture) (physicalDevice : VkPhysicalDevice) (logicalDevice : VkDevice)
    (pool : VkCommandPool) (buffer : Option Nat) (bufferSize : VkDeviceSize)
    (format : VkFormat) (texWidth texHeight : Nat) (copyQueue : VkQueue) (filter : VkFilter)
    (imageUsageFlags : VkFlags) (imageLayout : VkImageLayout) : DriverM computeTexture := do
  assert buffer.isSome "Assertion failed: buffer"
  let self ← pure <| { self with width := texWidth, height := texHeight, mipLevels := 1 }
  let memAllocInfo ← pure <| initializers.memoryAllocateInfo
  -- Use a separate command buffer for texture loading
  let copyCmd ← utils.createCommandBuffer driver VK_COMMAND_BUFFER_LEVEL_PRIMARY pool logicalDevice
  -- Create a host-visible staging buffer that contains the raw image data
  let bufferCreateInfo ← pure <| initializers.bufferCreateInfo
  let bufferCreateInfo ← pure <| { bufferCreateInfo with
    size := bufferSize
    usage := VK_BUFFER_USAGE_TRANSFER_SRC_BIT
    sharingMode := VK_SHARING_MODE_EXCLUSIVE }
  let (res, stagingBuffer) ← driver.call (.vkCreateBuffer logicalDevice bufferCreateInfo none)
  ST_CHECK_RESULT res
  -- Get memory requirements for the staging buffer (alignment, memory type bits)
  let memReqs ← DriverM.query
    (fun issued => queries.vkGetBufferMemoryRequirements issued logicalDevice stagingBuffer)
  let memAllocInfo ← pure <| { memAllocInfo with allocationSize := memReqs.size }
  -- Get memory type index for a host visible buffer
  let (memoryTypeIndex, _) ← DriverM.lift
    (utils.getMemoryType queries.vkGetPhysicalDeviceMemoryProperties physicalDevice
      memReqs.memoryTypeBits
      (VK_MEMORY_PROPERTY_HOST_VISIBLE_BIT ||| VK_MEMORY_PROPERTY_HOST_COHERENT_BIT) none)
  let memAllocInfo ← pure <| { memAllocInfo with memoryTypeIndex := memoryTypeIndex }
  let (res, stagingMemory) ← driver.call (.vkAllocateMemory logicalDevice memAllocInfo none)
  ST_CHECK_RESULT res
  let (res, _) ← driver.call (.vkBindBufferMemory logicalDevice stagingBuffer stagingMemory 0)
  ST_CHECK_RESULT res
  -- Copy texture data into staging buffer
  let (res, data) ← driver.call (.vkMapMemory logicalDevice stagingMemory 0 memReqs.size 0)
  ST_CHECK_RESULT res
  let _ ← driver.call (.memcpy data buffer bufferSize)
  let _ ← driver.call (.vkUnmapMemory logicalDevice stagingMemory)
  let bufferCopyRegion : VkBufferImageCopy ← pure <|
    { bufferOffset := 0, bufferRowLength := 0, bufferImageHeight := 0
      imageSubresource := { aspectMask := 0, mipLevel := 0, baseArrayLayer := 0, layerCount := 0 }
      imageOffset := { x := 0, y := 0, z := 0 }
      imageExtent := { width := 0, height := 0, depth := 0 } }
  let bufferCopyRegion ← pure <| { bufferCopyRegion with
    imageSubresource :=
      { aspectMask := VK_IMAGE_ASPECT_COLOR_BIT, mipLevel := 0, baseArrayLayer := 0,
        layerCount := 1 }
    imageExtent := { width := self.width, height := self.height, depth := 1 }
    bufferOffset := 0 }
  -- Create optimal tiled target image
  let imageCreateInfo ← pure <| initializers.imageCreateInfo
  let imageCreateInfo ← pure <| { imageCreateInfo with
    imageType := VK_IMAGE_TYPE_2D
    format := format
    mipLevels := self.mipLevels
    arrayLayers := 1
    samples := VK_SAMPLE_COUNT_1_BIT
    tiling := VK_IMAGE_TILING_OPTIMAL
    sharingMode := VK_SHARING_MODE_EXCLUSIVE
    initialLayout := VK_IMAGE_LAYOUT_UNDEFINED
    extent := { width := self.width, height := self.height, depth := 1 }
    usage := imageUsageFlags }
  -- Ensure that the TRANSFER_DST bit is set for staging
  let imageCreateInfo ← pure <|
    if imageCreateInfo.usage &&& VK_IMAGE_USAGE_TRANSFER_DST_BIT = 0 then
      { imageCreateInfo with usage := imageCreateInfo.usage ||| VK_IMAGE_USAGE_TRANSFER_DST_BIT }
    else
      imageCreateInfo
  let (res, image) ← driver.call (.vkCreateImage logicalDevice imageCreateInfo none)
  ST_CHECK_RESULT res
  let self ← pure <| { self with image := image }
  let memReqs ← DriverM.query
    (fun issued => queries.vkGetImageMemoryRequirements issued logicalDevice self.image)
  let memAllocInfo ← pure <| { memAllocInfo with allocationSize := memReqs.size }
  let (memoryTypeIndex, _) ← DriverM.lift
    (utils.getMemoryType queries.vkGetPhysicalDeviceMemoryProperties physicalDevice
      memReqs.memoryTypeBits VK_MEMORY_PROPERTY_DEVICE_LOCAL_BIT none)
  let memAllocInfo ← pure <| { memAllocInfo with memoryTypeIndex := memoryTypeIndex }
  let (res, deviceMemory) ← driver.call (.vkAllocateMemory logicalDevice memAllocInfo none)
  ST_CHECK_RESULT res
  let self ← pure <| { self with deviceMemory := deviceMemory }
  let (res, _) ← driver.call (.vkBindImageMemory logicalDevice self.image self.deviceMemory 0)
  ST_CHECK_RESULT res
  let subresourceRange : VkImageSubresourceRange ← pure <|
    { aspectMask := VK_IMAGE_ASPECT_COLOR_BIT, baseMipLevel := 0, levelCount := self.mipLevels,
      baseArrayLayer := 0, layerCount := 1 }
  -- Image barrier for optimal image (target)
  utils.setImageLayout driver copyCmd self.image VK_IMAGE_LAYOUT_UNDEFINED
    VK_IMAGE_LAYOUT_TRANSFER_DST_OPTIMAL subresourceRange
    VK_PIPELINE_STAGE_ALL_COMMANDS_BIT VK_PIPELINE_STAGE_ALL_COMMANDS_BIT
  -- Copy mip levels from staging buffer
  let _ ← driver.call (.vkCmdCopyBufferToImage copyCmd stagingBuffer self.image
    VK_IMAGE_LAYOUT_TRANSFER_DST_OPTIMAL 1 (some [bufferCopyRegion]))
  -- Change texture image layout to shader read after all mip levels have been copied
  let self ← pure <| { self with imageLayout := imageLayout }
  utils.setImageLayout driver copyCmd self.image VK_IMAGE_LAYOUT_TRANSFER_DST_OPTIMAL
    imageLayout subresourceRange
    VK_PIPELINE_STAGE_ALL_COMMANDS_BIT VK_PIPELINE_STAGE_ALL_COMMANDS_BIT
  utils.flushCommandBuffer driver logicalDevice copyCmd copyQueue pool
  -- Clean up staging resources
  let _ ← driver.call (.vkDestroyBuffer logicalDevice stagingBuffer none)
  let _ ← driver.call (.vkFreeMemory logicalDevice stagingMemory none)
  -- Create sampler
  let samplerCreateInfo : VkSamplerCreateInfo ← pure <|
    { sType := VK_STRUCTURE_TYPE_SAMPLER_CREATE_INFO, pNext := none, flags := 0
      magFilter := filter, minFilter := filter
      mipmapMode := VK_SAMPLER_MIPMAP_MODE_LINEAR
      addressModeU := VK_SAMPLER_ADDRESS_MODE_REPEAT
      addressModeV := VK_SAMPLER_ADDRESS_MODE_REPEAT
      addressModeW := VK_SAMPLER_ADDRESS_MODE_REPEAT
      mipLodBias := 0, anisotropyEnable := 0, maxAnisotropy := 1, compareEnable := 0
      compareOp := VK_COMPARE_OP_NEVER, minLod := 0, maxLod := 0, borderColor := 0
      unnormalizedCoordinates := 0 }
  let (res, sampler) ← driver.call (.vkCreateSampler logicalDevice samplerCreateInfo none)
  ST_CHECK_RESULT res
  let self ← pure <| { self with sampler := sampler }
  -- Create image view
  let viewCreateInfo : VkImageViewCreateInfo ← pure <|
    { sType := VK_STRUCTURE_TYPE_IMAGE_VIEW_CREATE_INFO, pNext := none, flags := 0
      image := self.image, viewType := VK_IMAGE_VIEW_TYPE_2D, format := format
      components := { r := 0, g := 0, b := 0, a := 0 }
      subresourceRange :=
        { aspectMask := VK_IMAGE_ASPECT_COLOR_BIT, baseMipLevel := 0, levelCount := 1,
          baseArrayLayer := 0, layerCount := 1 } }
  let (res, view) ← driver.call (.vkCreateImageView logicalDevice viewCreateInfo none)
  ST_CHECK_RESULT res
  let self ← pure <| { self with view := view }
  return { self with
    descriptor :=
      { sampler := self.sampler, imageView := self.view, imageLayout := imageLayout } }

/-- The commands recorded into the command buffer `commandBuffer` among the
driver calls `issued`, in the order they were recorded. -/
def recordedCommands (commandBuffer : VkCommandBuffer) (issued : List DriverCall) :
    List DriverCall :=
  issued.filter fun call =>
    match call with
    | .vkCmdPipelineBarrier cb _ _ _ _ _ _ _ _ _ => decide (cb = commandBuffer)
    | .vkCmdCopyBufferToImage cb _ _ _ _ _ => decide (cb = commandBuffer)
    | _ => false

end Texture

/-! ## Specification tables and sample inputs -/

namespace utils

/-- The old-layout to source-access-mask table of the specification, item (e). -/
def oldLayoutAccessTable (oldImageLayout : VkImageLayout) : VkFlags :=
  if oldImageLayout = VK_IMAGE_LAYOUT_UNDEFINED then 0
  else if oldImageLayout = VK_IMAGE_LAYOUT_PREINITIALIZED then VK_ACCESS_HOST_WRITE_BIT
  else if oldImageLayout = VK_IMAGE_LAYOUT_COLOR_ATTACHMENT_OPTIMAL then
    VK_ACCESS_COLOR_ATTACHMENT_WRITE_BIT
  else if oldImageLayout = VK_IMAGE_LAYOUT_DEPTH_STENCIL_ATTACHMENT_OPTIMAL then
    VK_ACCESS_DEPTH_STENCIL_ATTACHMENT_WRITE_BIT
  else if oldImageLayout = VK_IMAGE_LAYOUT_TRANSFER_SRC_OPTIMAL then VK_ACCESS_TRANSFER_READ_BIT
  else if oldImageLayout = VK_IMAGE_LAYOUT_TRANSFER_DST_OPTIMAL then VK_ACCESS_TRANSFER_WRITE_BIT
  else if oldImageLayout = VK_IMAGE_LAYOUT_SHADER_READ_ONLY_OPTIMAL then VK_ACCESS_SHADER_READ_BIT
  else 0

/-- The new-layout to destination-access-mask table of the specification, item (e). -/
def newLayoutAccessTable (newImageLayout : VkImageLayout) : VkFlags :=
  if newImageLayout = VK_IMAGE_LAYOUT_TRANSFER_DST_OPTIMAL then VK_ACCESS_TRANSFER_WRITE_BIT
  else if newImageLayout = VK_IMAGE_LAYOUT_TRANSFER_SRC_OPTIMAL then VK_ACCESS_TRANSFER_READ_BIT
  else if newImageLayout = VK_IMAGE_LAYOUT_COLOR_ATTACHMENT_OPTIMAL then
    VK_ACCESS_COLOR_ATTACHMENT_WRITE_BIT
  else if newImageLayout = VK_IMAGE_LAYOUT_DEPTH_STENCIL_ATTACHMENT_OPTIMAL then
    VK_ACCESS_DEPTH_STENCIL_ATTACHMENT_WRITE_BIT
  else if newImageLayout = VK_IMAGE_LAYOUT_SHADER_READ_ONLY_OPTIMAL then VK_ACCESS_SHADER_READ_BIT
  else 0

/-- A device with three memory types, of property flags 1, 6 and 7. -/
def sampleMemoryProperties : VkPhysicalDevice → VkPhysicalDeviceMemoryProperties :=
  fun _ => { memoryTypeCount := 3
             memoryTypes := fun i => { propertyFlags := [1, 6, 7].getD i 0, heapIndex := 0 } }

/-- A driver whose every call succeeds and hands out the handle 7. -/
def sampleDriver : Driver :=
  { result := fun _ _ => VK_SUCCESS, handle := fun _ _ => 7 }

/-- A driver whose fourth call times out; every other call succeeds. -/
def timeoutDriver : Driver :=
  { result := fun issued _ => if issued.length = 3 then VK_TIMEOUT else VK_SUCCESS
    handle := fun _ _ => 7 }

/-- A colour subresource range of one mip level and one layer. -/
def sampleRange : VkImageSubresourceRange :=
  { aspectMask := 1, baseMipLevel := 0, levelCount := 1, baseArrayLayer := 0, layerCount := 1 }

/-- Queries of a device with the memory types of `sampleMemoryProperties`, on which
every buffer and every image needs 64 bytes of any of the three types. -/
def sampleQueries : DriverQueries :=
  { vkGetPhysicalDeviceMemoryProperties := sampleMemoryProperties
    vkGetBufferMemoryRequirements := fun _ _ _ => { size := 64, alignment := 16, memoryTypeBits := 7 }
    vkGetImageMemoryRequirements := fun _ _ _ => { size := 64, alignment := 16, memoryTypeBits := 7 } }

/-- A texture object before `fromBuffer` is called on it, every member zero. -/
def sampleTexture : Texture.computeTexture :=
  { image := 0, imageLayout := 0, deviceMemory := 0, view := 0, width := 0, height := 0,
    mipLevels := 0, layerCount := 0,
    descriptor := { sampler := 0, imageView := 0, imageLayout := 0 }, sampler := 0 }

end utils

/-! ## Lemmas on the scan loop of `getMemoryType` -/

namespace utils

theorem and_one_eq_one_iff (x : Nat) : x &&& 1 = 1 ↔ x.testBit 0 = true := by
  rw [Nat.and_one_is_mod, Nat.testBit_zero]
  simp

/-- What the loop returns, in terms of the bits of the `typeBits` it was entered with. -/
theorem getMemoryTypeLoop_some (mp : VkPhysicalDeviceMemoryProperties) (properties : VkFlags) :
    ∀ (n i tb k : Nat), getMemoryTypeLoop mp properties n i tb = some k →
      i ≤ k ∧ k < i + n ∧ tb.testBit (k - i) = true ∧
        (mp.memoryTypes k).propertyFlags &&& properties = properties ∧
        ∀ j, i ≤ j → j < k →
          ¬ (tb.testBit (j - i) = true ∧
              (mp.memoryTypes j).propertyFlags &&& properties = properties) := by
  intro n
  induction n with
  | zero => intro i tb k h; simp [getMemoryTypeLoop] at h
  | succ n ih =>
    intro i tb k h
    have step : getMemoryTypeLoop mp properties n (i + 1) (tb >>> 1) = some k →
        ¬ (tb.testBit 0 = true ∧ (mp.memoryTypes i).propertyFlags &&& properties = properties) →
        i ≤ k ∧ k < i + (n + 1) ∧ tb.testBit (k - i) = true ∧
        (mp.memoryTypes k).propertyFlags &&& properties = properties ∧
        ∀ j, i ≤ j → j < k →
          ¬ (tb.testBit (j - i) = true ∧
              (mp.memoryTypes j).propertyFlags &&& properties = properties) := by
      intro hrec hnot
      obtain ⟨h1, h2, h3, h4, h5⟩ := ih (i + 1) (tb >>> 1) k hrec
      refine ⟨by omega, by omega, ?_, h4, ?_⟩
      · rw [Nat.testBit_shiftRight] at h3
        have e : 1 + (k - (i + 1)) = k - i := by omega
        rw [e] at h3
        exact h3
      · intro j hij hjk
        by_cases hji : j = i
        · subst hji
          simpa using hnot
        · have := h5 j (by omega) hjk
          rw [Nat.testBit_shiftRight] at this
          have e : 1 + (j - (i + 1)) = j - i := by omega
          rw [e] at this
          exact this
    unfold getMemoryTypeLoop at h
    by_cases hb : tb &&& 1 = 1
    · by_cases hp : (mp.memoryTypes i).propertyFlags &&& properties = properties
      · simp only [hb, hp, if_true] at h
        cases h
        refine ⟨le_refl _, by omega, ?_, hp, ?_⟩
        · simpa using (and_one_eq_one_iff tb).1 hb
        · intro j h1 h2; omega
      · simp only [hb, hp, if_true, if_false] at h
        exact step h (fun hh => hp hh.2)
    · simp only [hb, if_false] at h
      exact step h (fun hh => hb ((and_one_eq_one_iff tb).2 hh.1))

theorem getMemoryTypeLoop_none (mp : VkPhysicalDeviceMemoryProperties) (properties : VkFlags) :
    ∀ (n i tb : Nat), getMemoryTypeLoop mp properties n i tb = none →
      ∀ j, i ≤ j → j < i + n →
        ¬ (tb.testBit (j - i) = true ∧
            (mp.memoryTypes j).propertyFlags &&& properties = properties) := by
  intro n
  induction n with
  | zero => intro i tb _ j h1 h2; omega
  | succ n ih =>
    intro i tb h j h1 h2
    have step : getMemoryTypeLoop mp properties n (i + 1) (tb >>> 1) = none →
        ¬ (tb.testBit 0 = true ∧ (mp.memoryTypes i).propertyFlags &&& properties = properties) →
        ¬ (tb.testBit (j - i) = true ∧
            (mp.memoryTypes j).propertyFlags &&& properties = properties) := by
      intro hrec hnot
      by_cases hji : j = i
      · subst hji
        simpa using hnot
      · have := ih (i + 1) (tb >>> 1) hrec j (by omega) (by omega)
        rw [Nat.testBit_shiftRight] at this
        have e : 1 + (j - (i + 1)) = j - i := by omega
        rw [e] at this
        exact this
    unfold getMemoryTypeLoop at h
    by_cases hb : tb &&& 1 = 1
    · by_cases hp : (mp.memoryTypes i).propertyFlags &&& properties = properties
      · simp [hb, hp] at h
      · simp only [hb, hp, if_true, if_false] at h
        exact step h (fun hh => hp hh.2)
    · simp only [hb, if_false] at h
      exact step h (fun hh => hb ((and_one_eq_one_iff tb).2 hh.1))

/-- The loop returns `some k` exactly when `k` is the least matching index. -/
theorem getMemoryTypeLoop_eq_some_iff (mp : VkPhysicalDeviceMemoryProperties)
    (typeBits : Nat) (properties : VkFlags) (k : Nat) :
    getMemoryTypeLoop mp properties mp.memoryTypeCount 0 typeBits = some k ↔
      MemoryTypeMatches mp typeBits properties k ∧
        ∀ j, j < k → ¬ MemoryTypeMatches mp typeBits properties j := by
  constructor
  · intro h
    obtain ⟨_, h2, h3, h4, h5⟩ := getMemoryTypeLoop_some mp properties _ _ _ _ h
    refine ⟨⟨by omega, by simpa using h3, h4⟩, ?_⟩
    intro j hj hm
    exact h5 j (Nat.zero_le _) hj ⟨by simpa using hm.2.1, hm.2.2⟩
  · rintro ⟨hk, hmin⟩
    cases hres : getMemoryTypeLoop mp properties mp.memoryTypeCount 0 typeBits with
    | none =>
      exact absurd ⟨by simpa using hk.2.1, hk.2.2⟩
        (getMemoryTypeLoop_none mp properties _ _ _ hres k (Nat.zero_le _) (by simpa using hk.1))
    | some k2 =>
      obtain ⟨_, h2, h3, h4, h5⟩ := getMemoryTypeLoop_some mp properties _ _ _ _ hres
      have hk2 : MemoryTypeMatches mp typeBits properties k2 :=
        ⟨by omega, by simpa using h3, h4⟩
      rcases Nat.lt_trichotomy k k2 with hlt | heq | hgt
      · exact absurd ⟨by simpa using hk.2.1, hk.2.2⟩ (h5 k (Nat.zero_le _) hlt)
      · rw [heq]
      · exact absurd hk2 (hmin k2 hgt)

theorem getMemoryTypeLoop_eq_none_iff (mp : VkPhysicalDeviceMemoryProperties)
    (typeBits : Nat) (properties : VkFlags) :
    getMemoryTypeLoop mp properties mp.memoryTypeCount 0 typeBits = none ↔
      ∀ j, ¬ MemoryTypeMatches mp typeBits properties j := by
  constructor
  · intro h j hm
    exact getMemoryTypeLoop_none mp properties _ _ _ h j (Nat.zero_le _) (by simpa using hm.1)
      ⟨by simpa using hm.2.1, hm.2.2⟩
  · intro h
    cases hres : getMemoryTypeLoop mp properties mp.memoryTypeCount 0 typeBits with
    | none => rfl
    | some k =>
      exact absurd ((getMemoryTypeLoop_eq_some_iff mp typeBits properties k).1 hres).1 (h k)

/-! ## `getMemoryType` -/

/-- C1, soundness of `getMemoryType`: whenever it reports a match (it returns
normally with `memTypeFound` null, or it sets `*memTypeFound` to true), the
returned index `i` is below `memoryTypeCount`, bit `i` of the original `typeBits`
is set, and `memoryTypes[i].propertyFlags & properties == properties`. -/
theorem getMemoryType_sound
    (query : VkPhysicalDevice → VkPhysicalDeviceMemoryProperties)
    (physicalDevice : VkPhysicalDevice) (typeBits : Nat) (properties : VkFlags)
    (memTypeFound : Option VkBool32) (i : Nat) (cell : Option VkBool32)
    (hreturn : getMemoryType query physicalDevice typeBits properties memTypeFound
      = Except.ok (i, cell))
    (hreport : memTypeFound = none ∨ cell = some VK_TRUE) :
    i < (query physicalDevice).memoryTypeCount ∧ typeBits.testBit i = true ∧
      ((query physicalDevice).memoryTypes i).propertyFlags &&& properties = properties := by
  simp only [getMemoryType] at hreturn
  cases hloop : getMemoryTypeLoop (query physicalDevice) properties
      (query physicalDevice).memoryTypeCount 0 typeBits with
  | some k =>
    have hk := ((getMemoryTypeLoop_eq_some_iff _ typeBits properties k).1 hloop).1
    rw [hloop] at hreturn
    cases memTypeFound with
    | none =>
      simp only [Except.ok.injEq, Prod.mk.injEq] at hreturn
      rw [← hreturn.1]; exact hk
    | some v =>
      simp only [Except.ok.injEq, Prod.mk.injEq] at hreturn
      rw [← hreturn.1]; exact hk
  | none =>
    rw [hloop] at hreturn
    cases memTypeFound with
    | none => simp at hreturn
    | some v =>
      simp only [Except.ok.injEq, Prod.mk.injEq] at hreturn
      rcases hreport with h | h
      · simp at h
      · rw [← hreturn.2] at h
        simp [VK_TRUE, VK_FALSE] at h

theorem getMemoryType_sound_witness :
    getMemoryType sampleMemoryProperties 0 6 6 none = Except.ok (1, none) ∧
      (1 < (sampleMemoryProperties 0).memoryTypeCount ∧ Nat.testBit 6 1 = true ∧
        ((sampleMemoryProperties 0).memoryTypes 1).propertyFlags &&& 6 = 6) :=
  ⟨rfl, getMemoryType_sound sampleMemoryProperties 0 6 6 none 1 none rfl (Or.inl rfl)⟩

/-- C2, failure reporting of `getMemoryType`: it throws if and only if
`memTypeFound` is null and no index matches; with a non-null `memTypeFound` it
never throws, it sets the cell to true exactly when a matching index exists, and
it returns 0 with the cell false when none exists. -/
theorem getMemoryType_failure_reporting
    (query : VkPhysicalDevice → VkPhysicalDeviceMemoryProperties)
    (physicalDevice : VkPhysicalDevice) (typeBits : Nat) (properties : VkFlags) :
    (∀ memTypeFound : Option VkBool32,
      (∃ msg, getMemoryType query physicalDevice typeBits properties memTypeFound
          = Except.error msg) ↔
        (memTypeFound = none ∧
          ¬ ∃ i, MemoryTypeMatches (query physicalDevice) typeBits properties i)) ∧
    (∀ v : VkBool32, ∃ i b,
      getMemoryType query physicalDevice typeBits properties (some v) = Except.ok (i, some b) ∧
      (b = VK_TRUE ↔ ∃ j, MemoryTypeMatches (query physicalDevice) typeBits properties j) ∧
      ((¬ ∃ j, MemoryTypeMatches (query physicalDevice) typeBits properties j) →
        i = 0 ∧ b = VK_FALSE)) := by
  have hsome := getMemoryTypeLoop_eq_some_iff (query physicalDevice) typeBits properties
  have hnone := getMemoryTypeLoop_eq_none_iff (query physicalDevice) typeBits properties
  constructor
  · intro memTypeFound
    cases hloop : getMemoryTypeLoop (query physicalDevice) properties
        (query physicalDevice).memoryTypeCount 0 typeBits with
    | some k =>
      have hk := ((hsome k).1 hloop).1
      cases memTypeFound with
      | none =>
        simp only [getMemoryType, hloop]
        constructor
        · rintro ⟨msg, h⟩
          simp at h
        · rintro ⟨_, h⟩
          exact absurd ⟨k, hk⟩ h
      | some v => simp [getMemoryType, hloop]
    | none =>
      have hno := hnone.1 hloop
      cases memTypeFound with
      | none =>
        simp only [getMemoryType, hloop]
        constructor
        · intro _
          exact ⟨trivial, fun ⟨j, hj⟩ => hno j hj⟩
        · intro _
          exact ⟨_, rfl⟩
      | some v => simp [getMemoryType, hloop]
  · intro v
    cases hloop : getMemoryTypeLoop (query physicalDevice) properties
        (query physicalDevice).memoryTypeCount 0 typeBits with
    | some k =>
      have hk := ((hsome k).1 hloop).1
      simp only [getMemoryType, hloop]
      exact ⟨k, VK_TRUE, rfl, ⟨fun _ => ⟨k, hk⟩, fun _ => rfl⟩, fun h => absurd ⟨k, hk⟩ h⟩
    | none =>
      have hno := hnone.1 hloop
      simp only [getMemoryType, hloop]
      refine ⟨0, VK_FALSE, rfl, ⟨fun h => ?_, fun ⟨j, hj⟩ => absurd hj (hno j)⟩, fun _ => ⟨rfl, rfl⟩⟩
      simp [VK_TRUE, VK_FALSE] at h

/-- C10, completeness and minimality of `getMemoryType`: if some index `j` below
`memoryTypeCount` has bit `j` of `typeBits` set and all the requested property
bits, then `getMemoryType` reports a match (it returns normally, with the cell
set to true when `memTypeFound` is non-null) and returns the least such index. -/
theorem getMemoryType_complete_least
    (query : VkPhysicalDevice → VkPhysicalDeviceMemoryProperties)
    (physicalDevice : VkPhysicalDevice) (typeBits : Nat) (properties : VkFlags)
    (memTypeFound : Option VkBool32) (j : Nat)
    (hj : MemoryTypeMatches (query physicalDevice) typeBits properties j) :
    ∃ i, getMemoryType query physicalDevice typeBits properties memTypeFound
          = Except.ok (i, memTypeFound.map (fun _ => VK_TRUE)) ∧
      MemoryTypeMatches (query physicalDevice) typeBits properties i ∧ i ≤ j ∧
      ∀ k, k < i → ¬ MemoryTypeMatches (query physicalDevice) typeBits properties k := by
  cases hloop : getMemoryTypeLoop (query physicalDevice) properties
      (query physicalDevice).memoryTypeCount 0 typeBits with
  | some k =>
    obtain ⟨hk, hmin⟩ := (getMemoryTypeLoop_eq_some_iff _ typeBits properties k).1 hloop
    refine ⟨k, ?_, hk, ?_, hmin⟩
    · cases memTypeFound <;> simp [getMemoryType, hloop]
    · by_contra hlt
      exact hmin j (by omega) hj
  | none =>
    exact absurd hj ((getMemoryTypeLoop_eq_none_iff _ typeBits properties).1 hloop j)

theorem getMemoryType_complete_least_witness :
    MemoryTypeMatches (sampleMemoryProperties 0) 6 6 2 ∧
      ∃ i, getMemoryType sampleMemoryProperties 0 6 6 (some 0)
            = Except.ok (i, (some 0 : Option VkBool32).map (fun _ => VK_TRUE)) ∧
        MemoryTypeMatches (sampleMemoryProperties 0) 6 6 i ∧ i ≤ 2 ∧
        ∀ k, k < i → ¬ MemoryTypeMatches (sampleMemoryProperties 0) 6 6 k :=
  ⟨by decide, getMemoryType_complete_least sampleMemoryProperties 0 6 6 (some 0) 2 (by decide)⟩

/-! ## `errorString` -/

/-- C3, `errorString` is a fixed lookup table: each of the 23 status codes of its
`switch` yields its own name without the `VK_` prefix, the 23 strings are
pairwise distinct, and every other `VkResult` value, `VK_SUCCESS` included,
yields `"UNKNOWN_ERROR"`. -/
theorem errorString_lookup_table :
    (errorString VK_NOT_READY = "NOT_READY" ∧
     errorString VK_TIMEOUT = "TIMEOUT" ∧
     errorString VK_EVENT_SET = "EVENT_SET" ∧
     errorString VK_EVENT_RESET = "EVENT_RESET" ∧
     errorString VK_INCOMPLETE = "INCOMPLETE" ∧
     errorString VK_ERROR_OUT_OF_HOST_MEMORY = "ERROR_OUT_OF_HOST_MEMORY" ∧
     errorString VK_ERROR_OUT_OF_DEVICE_MEMORY = "ERROR_OUT_OF_DEVICE_MEMORY" ∧
     errorString VK_ERROR_INITIALIZATION_FAILED = "ERROR_INITIALIZATION_FAILED" ∧
     errorString VK_ERROR_DEVICE_LOST = "ERROR_DEVICE_LOST" ∧
     errorString VK_ERROR_MEMORY_MAP_FAILED = "ERROR_MEMORY_MAP_FAILED" ∧
     errorString VK_ERROR_LAYER_NOT_PRESENT = "ERROR_LAYER_NOT_PRESENT" ∧
     errorString VK_ERROR_EXTENSION_NOT_PRESENT = "ERROR_EXTENSION_NOT_PRESENT" ∧
     errorString VK_ERROR_FEATURE_NOT_PRESENT = "ERROR_FEATURE_NOT_PRESENT" ∧
     errorString VK_ERROR_INCOMPATIBLE_DRIVER = "ERROR_INCOMPATIBLE_DRIVER" ∧
     errorString VK_ERROR_TOO_MANY_OBJECTS = "ERROR_TOO_MANY_OBJECTS" ∧
     errorString VK_ERROR_FORMAT_NOT_SUPPORTED = "ERROR_FORMAT_NOT_SUPPORTED" ∧
     errorString VK_ERROR_SURFACE_LOST_KHR = "ERROR_SURFACE_LOST_KHR" ∧
     errorString VK_ERROR_NATIVE_WINDOW_IN_USE_KHR = "ERROR_NATIVE_WINDOW_IN_USE_KHR" ∧
     errorString VK_SUBOPTIMAL_KHR = "SUBOPTIMAL_KHR" ∧
     errorString VK_ERROR_OUT_OF_DATE_KHR = "ERROR_OUT_OF_DATE_KHR" ∧
     errorString VK_ERROR_INCOMPATIBLE_DISPLAY_KHR = "ERROR_INCOMPATIBLE_DISPLAY_KHR" ∧
     errorString VK_ERROR_VALIDATION_FAILED_EXT = "ERROR_VALIDATION_FAILED_EXT" ∧
     errorString VK_ERROR_INVALID_SHADER_NV = "ERROR_INVALID_SHADER_NV") ∧
    errorStringCases.length = 23 ∧
    (errorStringCases.map errorString).Nodup ∧
    (∀ errorCode : VkResult, errorCode ∉ errorStringCases →
      errorString errorCode = "UNKNOWN_ERROR") ∧
    VK_SUCCESS ∉ errorStringCases ∧
    errorString VK_SUCCESS = "UNKNOWN_ERROR" := by
  refine ⟨by decide, by decide, by decide, ?_, by decide, by decide⟩
  intro errorCode h
  simp only [errorStringCases, List.mem_cons, List.mem_singleton, List.not_mem_nil, or_false,
    not_or] at h
  obtain ⟨h1, h2, h3, h4, h5, h6, h7, h8, h9, h10, h11, h12, h13, h14, h15, h16, h17, h18,
    h19, h20, h21, h22, h23⟩ := h
  simp only [errorString, h1, h2, h3, h4, h5, h6, h7, h8, h9, h10, h11, h12, h13, h14, h15,
    h16, h17, h18, h19, h20, h21, h22, h23, if_false]

end utils

/-! ## Structure initializers -/

namespace initializers

/-- C4 as stated fails: the barrier returned by `imageMemoryBarrier` is not its
type tag followed by zeros, both queue family indices being
`VK_QUEUE_FAMILY_IGNORED`. -/
theorem imageMemoryBarrier_not_zero_filled :
    imageMemoryBarrier ≠
        { sType := VK_STRUCTURE_TYPE_IMAGE_MEMORY_BARRIER, pNext := none, srcAccessMask := 0,
          dstAccessMask := 0, oldLayout := 0, newLayout := 0, srcQueueFamilyIndex := 0,
          dstQueueFamilyIndex := 0, image := 0,
          subresourceRange := { aspectMask := 0, baseMipLevel := 0, levelCount := 0,
                                baseArrayLayer := 0, layerCount := 0 } } ∧
      imageMemoryBarrier.srcQueueFamilyIndex = 4294967295 ∧
      imageMemoryBarrier.dstQueueFamilyIndex = 4294967295 := by
  decide

/-- C4 amended: every structure initializer returns a structure whose `sType` is
the type tag of that structure and whose remaining fields, other than those
copied from the arguments, are all zero, except that `imageMemoryBarrier` sets
`srcQueueFamilyIndex` and `dstQueueFamilyIndex` to `VK_QUEUE_FAMILY_IGNORED`. -/
theorem initializers_tag_and_zero
    (commandPool : VkCommandPool) (level : VkCommandBufferLevel) (bufferCount : Nat)
    (flags : VkFlags) :
    memoryAllocateInfo =
      { sType := VK_STRUCTURE_TYPE_MEMORY_ALLOCATE_INFO, pNext := none, allocationSize := 0,
        memoryTypeIndex := 0 } ∧
    commandBufferAllocateInfo commandPool level bufferCount =
      { sType := VK_STRUCTURE_TYPE_COMMAND_BUFFER_ALLOCATE_INFO, pNext := none,
        commandPool := commandPool, level := level, commandBufferCount := bufferCount } ∧
    commandBufferBeginInfo =
      { sType := VK_STRUCTURE_TYPE_COMMAND_BUFFER_BEGIN_INFO, pNext := none, flags := 0,
        pInheritanceInfo := none } ∧
    bufferCreateInfo =
      { sType := VK_STRUCTURE_TYPE_BUFFER_CREATE_INFO, pNext := none, flags := 0, size := 0,
        usage := 0, sharingMode := 0, queueFamilyIndexCount := 0,
        pQueueFamilyIndices := none } ∧
    imageCreateInfo =
      { sType := VK_STRUCTURE_TYPE_IMAGE_CREATE_INFO, pNext := none, flags := 0,
        imageType := 0, format := 0, extent := { width := 0, height := 0, depth := 0 },
        mipLevels := 0, arrayLayers := 0, samples := 0, tiling := 0, usage := 0,
        sharingMode := 0, queueFamilyIndexCount := 0, pQueueFamilyIndices := none,
        initialLayout := 0 } ∧
    imageMemoryBarrier =
      { sType := VK_STRUCTURE_TYPE_IMAGE_MEMORY_BARRIER, pNext := none, srcAccessMask := 0,
        dstAccessMask := 0, oldLayout := 0, newLayout := 0,
        srcQueueFamilyIndex := VK_QUEUE_FAMILY_IGNORED,
        dstQueueFamilyIndex := VK_QUEUE_FAMILY_IGNORED, image := 0,
        subresourceRange := { aspectMask := 0, baseMipLevel := 0, levelCount := 0,
                              baseArrayLayer := 0, layerCount := 0 } } ∧
    submitInfo =
      { sType := VK_STRUCTURE_TYPE_SUBMIT_INFO, pNext := none, waitSemaphoreCount := 0,
        pWaitSemaphores := none, pWaitDstStageMask := none, commandBufferCount := 0,
        pCommandBuffers := none, signalSemaphoreCount := 0, pSignalSemaphores := none } ∧
    fenceCreateInfo flags =
      { sType := VK_STRUCTURE_TYPE_FENCE_CREATE_INFO, pNext := none, flags := flags } :=
  ⟨rfl, rfl, rfl, rfl, rfl, rfl, rfl, rfl⟩

end initializers

namespace utils

/-! ## `setImageLayout` -/

/-- The whole effect of `setImageLayout`: one `vkCmdPipelineBarrier` call carrying
the barrier built from the arguments. -/
theorem setImageLayout_apply (driver : Driver) (cmdbuffer : VkCommandBuffer) (image : VkImage)
    (oldImageLayout newImageLayout : VkImageLayout) (subresourceRange : VkImageSubresourceRange)
    (srcStageMask dstStageMask : VkFlags) (issued : List DriverCall) :
    setImageLayout driver cmdbuffer image oldImageLayout newImageLayout subresourceRange
        srcStageMask dstStageMask issued =
      (Except.ok (), issued ++ [.vkCmdPipelineBarrier cmdbuffer srcStageMask dstStageMask 0
        0 none 0 none 1
        (some [setImageLayoutBarrier image oldImageLayout newImageLayout subresourceRange])]) :=
  rfl

theorem setImageLayoutSourceSwitch_srcAccessMask (b : VkImageMemoryBarrier)
    (oldImageLayout : VkImageLayout) (hb : b.srcAccessMask = 0) :
    (setImageLayoutSourceSwitch b oldImageLayout).srcAccessMask =
      oldLayoutAccessTable oldImageLayout := by
  unfold setImageLayoutSourceSwitch oldLayoutAccessTable
  split_ifs <;> first | rfl | exact hb

theorem setImageLayoutSourceSwitch_frame (b : VkImageMemoryBarrier)
    (oldImageLayout : VkImageLayout) :
    setImageLayoutSourceSwitch b oldImageLayout =
      { b with srcAccessMask := (setImageLayoutSourceSwitch b oldImageLayout).srcAccessMask } := by
  unfold setImageLayoutSourceSwitch
  split_ifs <;> rfl

theorem setImageLayoutTargetSwitch_srcAccessMask (b : VkImageMemoryBarrier)
    (newImageLayout : VkImageLayout) :
    (setImageLayoutTargetSwitch b newImageLayout).srcAccessMask =
      if newImageLayout = VK_IMAGE_LAYOUT_SHADER_READ_ONLY_OPTIMAL ∧ b.srcAccessMask = 0 then
        VK_ACCESS_HOST_WRITE_BIT ||| VK_ACCESS_TRANSFER_WRITE_BIT
      else b.srcAccessMask := by
  unfold setImageLayoutTargetSwitch
  by_cases h5 : newImageLayout = VK_IMAGE_LAYOUT_SHADER_READ_ONLY_OPTIMAL
  · subst h5
    have e1 : VK_IMAGE_LAYOUT_SHADER_READ_ONLY_OPTIMAL ≠ VK_IMAGE_LAYOUT_TRANSFER_DST_OPTIMAL := by
      decide
    have e2 : VK_IMAGE_LAYOUT_SHADER_READ_ONLY_OPTIMAL ≠ VK_IMAGE_LAYOUT_TRANSFER_SRC_OPTIMAL := by
      decide
    have e3 : VK_IMAGE_LAYOUT_SHADER_READ_ONLY_OPTIMAL ≠
        VK_IMAGE_LAYOUT_COLOR_ATTACHMENT_OPTIMAL := by decide
    have e4 : VK_IMAGE_LAYOUT_SHADER_READ_ONLY_OPTIMAL ≠
        VK_IMAGE_LAYOUT_DEPTH_STENCIL_ATTACHMENT_OPTIMAL := by decide
    rw [if_neg e1, if_neg e2, if_neg e3, if_neg e4, if_pos rfl]
    simp only [true_and]
  · simp only [h5, false_and, if_false]
    split_ifs <;> rfl

theorem setImageLayoutTargetSwitch_dstAccessMask (b : VkImageMemoryBarrier)
    (newImageLayout : VkImageLayout) (hb : b.dstAccessMask = 0) :
    (setImageLayoutTargetSwitch b newImageLayout).dstAccessMask =
      newLayoutAccessTable newImageLayout := by
  unfold setImageLayoutTargetSwitch newLayoutAccessTable
  split_ifs <;> first | rfl | exact hb | simp [hb]

theorem setImageLayoutTargetSwitch_frame (b : VkImageMemoryBarrier)
    (newImageLayout : VkImageLayout) :
    setImageLayoutTargetSwitch b newImageLayout =
      { b with
        srcAccessMask := (setImageLayoutTargetSwitch b newImageLayout).srcAccessMask
        dstAccessMask := (setImageLayoutTargetSwitch b newImageLayout).dstAccessMask } := by
  unfold setImageLayoutTargetSwitch
  split_ifs <;> rfl

theorem setImageLayoutSourceSwitch_dstAccessMask (b : VkImageMemoryBarrier)
    (oldImageLayout : VkImageLayout) :
    (setImageLayoutSourceSwitch b oldImageLayout).dstAccessMask = b.dstAccessMask := by
  rw [setImageLayoutSourceSwitch_frame]

theorem setImageLayoutBarrier_srcAccessMask (image : VkImage)
    (oldImageLayout newImageLayout : VkImageLayout) (subresourceRange : VkImageSubresourceRange) :
    (setImageLayoutBarrier image oldImageLayout newImageLayout subresourceRange).srcAccessMask =
      if newImageLayout = VK_IMAGE_LAYOUT_SHADER_READ_ONLY_OPTIMAL ∧
          oldLayoutAccessTable oldImageLayout = 0 then
        VK_ACCESS_HOST_WRITE_BIT ||| VK_ACCESS_TRANSFER_WRITE_BIT
      else oldLayoutAccessTable oldImageLayout := by
  simp only [setImageLayoutBarrier]
  rw [setImageLayoutTargetSwitch_srcAccessMask, setImageLayoutSourceSwitch_srcAccessMask _ _ rfl]

theorem setImageLayoutBarrier_dstAccessMask (image : VkImage)
    (oldImageLayout newImageLayout : VkImageLayout) (subresourceRange : VkImageSubresourceRange) :
    (setImageLayoutBarrier image oldImageLayout newImageLayout subresourceRange).dstAccessMask =
      newLayoutAccessTable newImageLayout := by
  simp only [setImageLayoutBarrier]
  rw [setImageLayoutTargetSwitch_dstAccessMask]
  rw [setImageLayoutSourceSwitch_dstAccessMask]
  rfl

theorem setImageLayoutBarrier_frame (image : VkImage)
    (oldImageLayout newImageLayout : VkImageLayout) (subresourceRange : VkImageSubresourceRange) :
    setImageLayoutBarrier image oldImageLayout newImageLayout subresourceRange =
      { sType := VK_STRUCTURE_TYPE_IMAGE_MEMORY_BARRIER
        pNext := none
        srcAccessMask :=
          (setImageLayoutBarrier image oldImageLayout newImageLayout subresourceRange).srcAccessMask
        dstAccessMask :=
          (setImageLayoutBarrier image oldImageLayout newImageLayout subresourceRange).dstAccessMask
        oldLayout := oldImageLayout
        newLayout := newImageLayout
        srcQueueFamilyIndex := VK_QUEUE_FAMILY_IGNORED
        dstQueueFamilyIndex := VK_QUEUE_FAMILY_IGNORED
        image := image
        subresourceRange := subresourceRange } := by
  simp only [setImageLayoutBarrier]
  rw [setImageLayoutTargetSwitch_frame, setImageLayoutSourceSwitch_frame]
  rfl

/-- C5 as stated fails: from the old layout `VK_IMAGE_LAYOUT_UNDEFINED` the
recorded barrier has source access mask `HOST_WRITE | TRANSFER_WRITE` (20480) when
the new layout is `SHADER_READ_ONLY_OPTIMAL` and 0 when it is
`TRANSFER_DST_OPTIMAL`. -/
theorem setImageLayout_srcAccessMask_depends_on_newLayout :
    ∃ b₁ b₂ : VkImageMemoryBarrier,
      (setImageLayout sampleDriver 1 2 VK_IMAGE_LAYOUT_UNDEFINED
          VK_IMAGE_LAYOUT_SHADER_READ_ONLY_OPTIMAL sampleRange
          VK_PIPELINE_STAGE_ALL_COMMANDS_BIT VK_PIPELINE_STAGE_ALL_COMMANDS_BIT []).2 =
        [.vkCmdPipelineBarrier 1 VK_PIPELINE_STAGE_ALL_COMMANDS_BIT
          VK_PIPELINE_STAGE_ALL_COMMANDS_BIT 0 0 none 0 none 1 (some [b₁])] ∧
      (setImageLayout sampleDriver 1 2 VK_IMAGE_LAYOUT_UNDEFINED
          VK_IMAGE_LAYOUT_TRANSFER_DST_OPTIMAL sampleRange
          VK_PIPELINE_STAGE_ALL_COMMANDS_BIT VK_PIPELINE_STAGE_ALL_COMMANDS_BIT []).2 =
        [.vkCmdPipelineBarrier 1 VK_PIPELINE_STAGE_ALL_COMMANDS_BIT
          VK_PIPELINE_STAGE_ALL_COMMANDS_BIT 0 0 none 0 none 1 (some [b₂])] ∧
      b₁.srcAccessMask = 20480 ∧ b₂.srcAccessMask = 0 ∧
      b₁.srcAccessMask ≠ b₂.srcAccessMask ∧
      b₁.srcAccessMask ≠ oldLayoutAccessTable VK_IMAGE_LAYOUT_UNDEFINED :=
  ⟨setImageLayoutBarrier 2 VK_IMAGE_LAYOUT_UNDEFINED VK_IMAGE_LAYOUT_SHADER_READ_ONLY_OPTIMAL
      sampleRange,
    setImageLayoutBarrier 2 VK_IMAGE_LAYOUT_UNDEFINED VK_IMAGE_LAYOUT_TRANSFER_DST_OPTIMAL
      sampleRange,
    rfl, rfl, by decide, by decide, by decide, by decide⟩

/-- C5 amended: the source access mask of the barrier recorded by `setImageLayout`
is the fixed lookup on the old layout (UNDEFINED -> 0, PREINITIALIZED -> HOST_WRITE,
COLOR_ATTACHMENT_OPTIMAL -> COLOR_ATTACHMENT_WRITE, DEPTH_STENCIL_ATTACHMENT_OPTIMAL ->
DEPTH_STENCIL_ATTACHMENT_WRITE, TRANSFER_SRC_OPTIMAL -> TRANSFER_READ,
TRANSFER_DST_OPTIMAL -> TRANSFER_WRITE, SHADER_READ_ONLY_OPTIMAL -> SHADER_READ, any
other old layout -> 0), whatever the new layout, except that for the new layout
SHADER_READ_ONLY_OPTIMAL a looked-up value of 0 is replaced by
HOST_WRITE | TRANSFER_WRITE. -/
theorem setImageLayout_srcAccessMask_lookup (driver : Driver) (cmdbuffer : VkCommandBuffer)
    (image : VkImage) (oldImageLayout newImageLayout : VkImageLayout)
    (subresourceRange : VkImageSubresourceRange) (srcStageMask dstStageMask : VkFlags)
    (issued : List DriverCall) :
    (∃ b : VkImageMemoryBarrier,
      (setImageLayout driver cmdbuffer image oldImageLayout newImageLayout subresourceRange
          srcStageMask dstStageMask issued).2 =
        issued ++ [.vkCmdPipelineBarrier cmdbuffer srcStageMask dstStageMask 0
          0 none 0 none 1 (some [b])] ∧
      b.srcAccessMask =
        if newImageLayout = VK_IMAGE_LAYOUT_SHADER_READ_ONLY_OPTIMAL ∧
            oldLayoutAccessTable oldImageLayout = 0 then
          VK_ACCESS_HOST_WRITE_BIT ||| VK_ACCESS_TRANSFER_WRITE_BIT
        else oldLayoutAccessTable oldImageLayout) ∧
    oldLayoutAccessTable VK_IMAGE_LAYOUT_UNDEFINED = 0 ∧
    oldLayoutAccessTable VK_IMAGE_LAYOUT_PREINITIALIZED = VK_ACCESS_HOST_WRITE_BIT ∧
    oldLayoutAccessTable VK_IMAGE_LAYOUT_COLOR_ATTACHMENT_OPTIMAL =
      VK_ACCESS_COLOR_ATTACHMENT_WRITE_BIT ∧
    oldLayoutAccessTable VK_IMAGE_LAYOUT_DEPTH_STENCIL_ATTACHMENT_OPTIMAL =
      VK_ACCESS_DEPTH_STENCIL_ATTACHMENT_WRITE_BIT ∧
    oldLayoutAccessTable VK_IMAGE_LAYOUT_TRANSFER_SRC_OPTIMAL = VK_ACCESS_TRANSFER_READ_BIT ∧
    oldLayoutAccessTable VK_IMAGE_LAYOUT_TRANSFER_DST_OPTIMAL = VK_ACCESS_TRANSFER_WRITE_BIT ∧
    oldLayoutAccessTable VK_IMAGE_LAYOUT_SHADER_READ_ONLY_OPTIMAL = VK_ACCESS_SHADER_READ_BIT ∧
    (∀ other : VkImageLayout,
      other ∉ [VK_IMAGE_LAYOUT_UNDEFINED, VK_IMAGE_LAYOUT_PREINITIALIZED,
        VK_IMAGE_LAYOUT_COLOR_ATTACHMENT_OPTIMAL, VK_IMAGE_LAYOUT_DEPTH_STENCIL_ATTACHMENT_OPTIMAL,
        VK_IMAGE_LAYOUT_TRANSFER_SRC_OPTIMAL, VK_IMAGE_LAYOUT_TRANSFER_DST_OPTIMAL,
        VK_IMAGE_LAYOUT_SHADER_READ_ONLY_OPTIMAL] →
      oldLayoutAccessTable other = 0) := by
  refine ⟨⟨_, congrArg Prod.snd (setImageLayout_apply driver cmdbuffer image oldImageLayout
      newImageLayout subresourceRange srcStageMask dstStageMask issued),
    setImageLayoutBarrier_srcAccessMask image oldImageLayout newImageLayout subresourceRange⟩,
    by decide, by decide, by decide, by decide, by decide, by decide, by decide, ?_⟩
  intro other h
  simp only [List.mem_cons, List.mem_singleton, List.not_mem_nil, or_false, not_or] at h
  obtain ⟨h1, h2, h3, h4, h5, h6, h7⟩ := h
  simp only [oldLayoutAccessTable, h1, h2, h3, h4, h5, h6, h7, if_false]

/-- C6, the destination access mask of the barrier recorded by `setImageLayout`
is a fixed lookup on the new layout, independent of the old layout:
TRANSFER_DST_OPTIMAL -> TRANSFER_WRITE, TRANSFER_SRC_OPTIMAL -> TRANSFER_READ,
COLOR_ATTACHMENT_OPTIMAL -> COLOR_ATTACHMENT_WRITE, DEPTH_STENCIL_ATTACHMENT_OPTIMAL ->
exactly DEPTH_STENCIL_ATTACHMENT_WRITE, SHADER_READ_ONLY_OPTIMAL -> SHADER_READ, and 0
for every other new layout. -/
theorem setImageLayout_dstAccessMask_lookup (driver : Driver) (cmdbuffer : VkCommandBuffer)
    (image : VkImage) (oldImageLayout newImageLayout : VkImageLayout)
    (subresourceRange : VkImageSubresourceRange) (srcStageMask dstStageMask : VkFlags)
    (issued : List DriverCall) :
    (∃ b : VkImageMemoryBarrier,
      (setImageLayout driver cmdbuffer image oldImageLayout newImageLayout subresourceRange
          srcStageMask dstStageMask issued).2 =
        issued ++ [.vkCmdPipelineBarrier cmdbuffer srcStageMask dstStageMask 0
          0 none 0 none 1 (some [b])] ∧
      b.dstAccessMask = newLayoutAccessTable newImageLayout) ∧
    newLayoutAccessTable VK_IMAGE_LAYOUT_TRANSFER_DST_OPTIMAL = VK_ACCESS_TRANSFER_WRITE_BIT ∧
    newLayoutAccessTable VK_IMAGE_LAYOUT_TRANSFER_SRC_OPTIMAL = VK_ACCESS_TRANSFER_READ_BIT ∧
    newLayoutAccessTable VK_IMAGE_LAYOUT_COLOR_ATTACHMENT_OPTIMAL =
      VK_ACCESS_COLOR_ATTACHMENT_WRITE_BIT ∧
    newLayoutAccessTable VK_IMAGE_LAYOUT_DEPTH_STENCIL_ATTACHMENT_OPTIMAL =
      VK_ACCESS_DEPTH_STENCIL_ATTACHMENT_WRITE_BIT ∧
    newLayoutAccessTable VK_IMAGE_LAYOUT_SHADER_READ_ONLY_OPTIMAL = VK_ACCESS_SHADER_READ_BIT ∧
    (∀ other : VkImageLayout,
      other ∉ [VK_IMAGE_LAYOUT_TRANSFER_DST_OPTIMAL, VK_IMAGE_LAYOUT_TRANSFER_SRC_OPTIMAL,
        VK_IMAGE_LAYOUT_COLOR_ATTACHMENT_OPTIMAL, VK_IMAGE_LAYOUT_DEPTH_STENCIL_ATTACHMENT_OPTIMAL,
        VK_IMAGE_LAYOUT_SHADER_READ_ONLY_OPTIMAL] →
      newLayoutAccessTable other = 0) := by
  refine ⟨⟨_, congrArg Prod.snd (setImageLayout_apply driver cmdbuffer image oldImageLayout
      newImageLayout subresourceRange srcStageMask dstStageMask issued),
    setImageLayoutBarrier_dstAccessMask image oldImageLayout newImageLayout subresourceRange⟩,
    by decide, by decide, by decide, by decide, by decide, ?_⟩
  intro other h
  simp only [List.mem_cons, List.mem_singleton, List.not_mem_nil, or_false, not_or] at h
  obtain ⟨h1, h2, h3, h4, h5⟩ := h
  simp only [newLayoutAccessTable, h1, h2, h3, h4, h5, if_false]

/-- C9, `setImageLayout` records exactly one pipeline barrier for every input:
with the given stage masks, dependency flags 0, no memory barrier, no buffer
barrier and exactly one image memory barrier, whose `oldLayout`, `newLayout`,
`image` and `subresourceRange` are the arguments and whose queue family indices
are both `VK_QUEUE_FAMILY_IGNORED`. -/
theorem setImageLayout_records_one_barrier (driver : Driver) (cmdbuffer : VkCommandBuffer)
    (image : VkImage) (oldImageLayout newImageLayout : VkImageLayout)
    (subresourceRange : VkImageSubresourceRange) (srcStageMask dstStageMask : VkFlags)
    (issued : List DriverCall) :
    ∃ b : VkImageMemoryBarrier,
      setImageLayout driver cmdbuffer image oldImageLayout newImageLayout subresourceRange
          srcStageMask dstStageMask issued =
        (Except.ok (), issued ++ [.vkCmdPipelineBarrier cmdbuffer srcStageMask dstStageMask 0
          0 none 0 none 1 (some [b])]) ∧
      b.oldLayout = oldImageLayout ∧ b.newLayout = newImageLayout ∧ b.image = image ∧
      b.subresourceRange = subresourceRange ∧
      b.srcQueueFamilyIndex = VK_QUEUE_FAMILY_IGNORED ∧
      b.dstQueueFamilyIndex = VK_QUEUE_FAMILY_IGNORED := by
  refine ⟨_, setImageLayout_apply driver cmdbuffer image oldImageLayout newImageLayout
    subresourceRange srcStageMask dstStageMask issued, ?_⟩
  rw [setImageLayoutBarrier_frame]
  exact ⟨rfl, rfl, rfl, rfl, rfl, rfl⟩

end utils

/-! ## Driver computations -/

theorem DriverM.bind_apply {α β : Type} (m : DriverM α) (f : α → DriverM β)
    (issued : List DriverCall) :
    (m >>= f) issued =
      match m issued with
      | (Except.ok a, issued1) => f a issued1
      | (Except.error e, issued1) => (Except.error e, issued1) :=
  rfl

theorem DriverM.pure_apply {α : Type} (a : α) (issued : List DriverCall) :
    (pure a : DriverM α) issued = (Except.ok a, issued) :=
  rfl

theorem Driver.call_apply (driver : Driver) (c : DriverCall) (issued : List DriverCall) :
    driver.call c issued =
      (Except.ok (driver.result issued c, driver.handle issued c), issued ++ [c]) :=
  rfl

theorem ST_CHECK_RESULT_success (res : VkResult) (h : res = VK_SUCCESS)
    (issued : List DriverCall) :
    ST_CHECK_RESULT res issued = (Except.ok (), issued) := by
  subst h
  rfl

theorem ST_CHECK_RESULT_failure (res : VkResult) (h : res ≠ VK_SUCCESS)
    (issued : List DriverCall) :
    ST_CHECK_RESULT res issued =
      (Except.error ("Fatal : VkResult is " ++ utils.errorString res), issued) := by
  simp only [ST_CHECK_RESULT, assert, h, ne_eq, not_false_eq_true, if_true, decide_False,
    Bool.false_eq_true, if_false]
  rfl

namespace utils

/-! ## `createCommandBuffer` and `flushCommandBuffer` -/

/-- C7, sequencing of `flushCommandBuffer`: for a null command-buffer handle it
issues no driver call; for a non-null handle, when every driver call returns
success, it issues exactly, once each and in this order: end the command buffer,
create a fence with no flags, submit one submit-info holding exactly that command
buffer guarded by that fence, wait on that fence with `DEFAULT_FENCE_TIMEOUT`,
destroy the fence, free the command buffer back to the given pool. -/
theorem flushCommandBuffer_sequence (driver : Driver) (logicalDevice : VkDevice)
    (commandBuffer : VkCommandBuffer) (queue : VkQueue) (pool : VkCommandPool)
    (issued : List DriverCall) :
    flushCommandBuffer driver logicalDevice VK_NULL_HANDLE queue pool issued
      = (Except.ok (), issued) ∧
    (commandBuffer ≠ VK_NULL_HANDLE →
     (∀ earlier call, driver.result earlier call = VK_SUCCESS) →
     flushCommandBuffer driver logicalDevice commandBuffer queue pool issued =
      (Except.ok (), issued ++
        [.vkEndCommandBuffer commandBuffer,
         .vkCreateFence logicalDevice
            { sType := VK_STRUCTURE_TYPE_FENCE_CREATE_INFO, pNext := none, flags := 0 } none,
         .vkQueueSubmit queue 1
            (some [{ sType := VK_STRUCTURE_TYPE_SUBMIT_INFO, pNext := none,
                     waitSemaphoreCount := 0, pWaitSemaphores := none,
                     pWaitDstStageMask := none, commandBufferCount := 1,
                     pCommandBuffers := some [commandBuffer], signalSemaphoreCount := 0,
                     pSignalSemaphores := none }])
            (driver.handle (issued ++ [.vkEndCommandBuffer commandBuffer])
              (.vkCreateFence logicalDevice
                { sType := VK_STRUCTURE_TYPE_FENCE_CREATE_INFO, pNext := none, flags := 0 }
                none)),
         .vkWaitForFences logicalDevice 1
            (some [driver.handle (issued ++ [.vkEndCommandBuffer commandBuffer])
              (.vkCreateFence logicalDevice
                { sType := VK_STRUCTURE_TYPE_FENCE_CREATE_INFO, pNext := none, flags := 0 }
                none)])
            VK_TRUE DEFAULT_FENCE_TIMEOUT,
         .vkDestroyFence logicalDevice
            (driver.handle (issued ++ [.vkEndCommandBuffer commandBuffer])
              (.vkCreateFence logicalDevice
                { sType := VK_STRUCTURE_TYPE_FENCE_CREATE_INFO, pNext := none, flags := 0 }
                none))
            none,
         .vkFreeCommandBuffers logicalDevice pool 1 (some [commandBuffer])])) := by
  constructor
  · rfl
  · intro hhandle hsuccess
    simp only [flushCommandBuffer, if_neg hhandle, DriverM.bind_apply, Driver.call_apply,
      ST_CHECK_RESULT_success _ (hsuccess _ _), DriverM.pure_apply, List.append_assoc,
      List.singleton_append, List.cons_append, List.nil_append]
    rfl

theorem flushCommandBuffer_sequence_witness :
    (5 : VkCommandBuffer) ≠ VK_NULL_HANDLE ∧
    (∀ earlier call, sampleDriver.result earlier call = VK_SUCCESS) ∧
    flushCommandBuffer sampleDriver 1 VK_NULL_HANDLE 2 3 [] = (Except.ok (), []) ∧
    flushCommandBuffer sampleDriver 1 5 2 3 [] =
      (Except.ok (),
        [.vkEndCommandBuffer 5,
         .vkCreateFence 1 { sType := 8, pNext := none, flags := 0 } none,
         .vkQueueSubmit 2 1
            (some [{ sType := 4, pNext := none, waitSemaphoreCount := 0, pWaitSemaphores := none,
                     pWaitDstStageMask := none, commandBufferCount := 1,
                     pCommandBuffers := some [5], signalSemaphoreCount := 0,
                     pSignalSemaphores := none }]) 7,
         .vkWaitForFences 1 1 (some [7]) 1 100000000000,
         .vkDestroyFence 1 7 none,
         .vkFreeCommandBuffers 1 3 1 (some [5])]) :=
  ⟨by decide, fun _ _ => rfl,
    (flushCommandBuffer_sequence sampleDriver 1 5 2 3 []).1,
    (flushCommandBuffer_sequence sampleDriver 1 5 2 3 []).2 (by decide) (fun _ _ => rfl)⟩

/-- C8, abort on any non-success status: in `createCommandBuffer` and
`flushCommandBuffer` every driver call wrapped in `ST_CHECK_RESULT` that returns a
status other than `VK_SUCCESS` (`VK_TIMEOUT` from the fence wait included) aborts
at that point, the calls issued ending with the failed one, and
`createCommandBuffer` returns a command buffer only if both the allocation and
the begin call returned `VK_SUCCESS`. -/
theorem abort_on_non_success (driver : Driver) (level : VkCommandBufferLevel)
    (pool : VkCommandPool) (logicalDevice : VkDevice) (commandBuffer : VkCommandBuffer)
    (queue : VkQueue) (issued : List DriverCall) :
    let allocateCall : DriverCall := .vkAllocateCommandBuffers logicalDevice
      { sType := VK_STRUCTURE_TYPE_COMMAND_BUFFER_ALLOCATE_INFO, pNext := none,
        commandPool := pool, level := level, commandBufferCount := 1 }
    let cmdBuffer := driver.handle issued allocateCall
    let beginCall : DriverCall := .vkBeginCommandBuffer cmdBuffer
      { sType := VK_STRUCTURE_TYPE_COMMAND_BUFFER_BEGIN_INFO, pNext := none, flags := 0,
        pInheritanceInfo := none }
    let endCall : DriverCall := .vkEndCommandBuffer commandBuffer
    let createCall : DriverCall := .vkCreateFence logicalDevice
      { sType := VK_STRUCTURE_TYPE_FENCE_CREATE_INFO, pNext := none, flags := 0 } none
    let fence := driver.handle (issued ++ [endCall]) createCall
    let submitCall : DriverCall := .vkQueueSubmit queue 1
      (some [{ sType := VK_STRUCTURE_TYPE_SUBMIT_INFO, pNext := none, waitSemaphoreCount := 0,
               pWaitSemaphores := none, pWaitDstStageMask := none, commandBufferCount := 1,
               pCommandBuffers := some [commandBuffer], signalSemaphoreCount := 0,
               pSignalSemaphores := none }]) fence
    let waitCall : DriverCall :=
      .vkWaitForFences logicalDevice 1 (some [fence]) VK_TRUE DEFAULT_FENCE_TIMEOUT
    -- createCommandBuffer
    (driver.result issued allocateCall ≠ VK_SUCCESS →
      createCommandBuffer driver level pool logicalDevice issued =
        (Except.error ("Fatal : VkResult is " ++ errorString (driver.result issued allocateCall)),
          issued ++ [allocateCall])) ∧
    (driver.result issued allocateCall = VK_SUCCESS →
      driver.result (issued ++ [allocateCall]) beginCall ≠ VK_SUCCESS →
      createCommandBuffer driver level pool logicalDevice issued =
        (Except.error ("Fatal : VkResult is " ++
            errorString (driver.result (issued ++ [allocateCall]) beginCall)),
          issued ++ [allocateCall, beginCall])) ∧
    (∀ (returned : VkCommandBuffer) (issued1 : List DriverCall),
      createCommandBuffer driver level pool logicalDevice issued = (Except.ok returned, issued1) →
      driver.result issued allocateCall = VK_SUCCESS ∧
      driver.result (issued ++ [allocateCall]) beginCall = VK_SUCCESS ∧
      returned = cmdBuffer ∧ issued1 = issued ++ [allocateCall, beginCall]) ∧
    -- flushCommandBuffer
    (commandBuffer ≠ VK_NULL_HANDLE →
      (driver.result issued endCall ≠ VK_SUCCESS →
        flushCommandBuffer driver logicalDevice commandBuffer queue pool issued =
          (Except.error ("Fatal : VkResult is " ++ errorString (driver.result issued endCall)),
            issued ++ [endCall])) ∧
      (driver.result issued endCall = VK_SUCCESS →
        driver.result (issued ++ [endCall]) createCall ≠ VK_SUCCESS →
        flushCommandBuffer driver logicalDevice commandBuffer queue pool issued =
          (Except.error ("Fatal : VkResult is " ++
              errorString (driver.result (issued ++ [endCall]) createCall)),
            issued ++ [endCall, createCall])) ∧
      (driver.result issued endCall = VK_SUCCESS →
        driver.result (issued ++ [endCall]) createCall = VK_SUCCESS →
        driver.result (issued ++ [endCall, createCall]) submitCall ≠ VK_SUCCESS →
        flushCommandBuffer driver logicalDevice commandBuffer queue pool issued =
          (Except.error ("Fatal : VkResult is " ++
              errorString (driver.result (issued ++ [endCall, createCall]) submitCall)),
            issued ++ [endCall, createCall, submitCall])) ∧
      (driver.result issued endCall = VK_SUCCESS →
        driver.result (issued ++ [endCall]) createCall = VK_SUCCESS →
        driver.result (issued ++ [endCall, createCall]) submitCall = VK_SUCCESS →
        driver.result (issued ++ [endCall, createCall, submitCall]) waitCall ≠ VK_SUCCESS →
        flushCommandBuffer driver logicalDevice commandBuffer queue pool issued =
          (Except.error ("Fatal : VkResult is " ++
              errorString (driver.result (issued ++ [endCall, createCall, submitCall]) waitCall)),
            issued ++ [endCall, createCall, submitCall, waitCall]))) := by
  simp only [createCommandBuffer, flushCommandBuffer, initializers.commandBufferAllocateInfo,
    initializers.commandBufferBeginInfo, initializers.submitInfo, initializers.fenceCreateInfo,
    VK_FLAGS_NONE, DriverM.bind_apply, Driver.call_apply, List.append_assoc,
    List.singleton_append, List.cons_append, List.nil_append]
  refine ⟨?_, ?_, ?_, ?_⟩
  · intro h1
    simp only [ST_CHECK_RESULT_failure _ h1]
  · intro h1 h2
    simp only [ST_CHECK_RESULT_success _ h1, List.append_assoc, List.singleton_append,
      ST_CHECK_RESULT_failure _ h2]
  · intro returned issued1 hret
    by_cases h1 : driver.result issued (.vkAllocateCommandBuffers logicalDevice
        { sType := VK_STRUCTURE_TYPE_COMMAND_BUFFER_ALLOCATE_INFO, pNext := none,
          commandPool := pool, level := level, commandBufferCount := 1 }) = VK_SUCCESS
    · by_cases h2 : driver.result
          (issued ++ [.vkAllocateCommandBuffers logicalDevice
            { sType := VK_STRUCTURE_TYPE_COMMAND_BUFFER_ALLOCATE_INFO, pNext := none,
              commandPool := pool, level := level, commandBufferCount := 1 }])
          (.vkBeginCommandBuffer
            (driver.handle issued (.vkAllocateCommandBuffers logicalDevice
              { sType := VK_STRUCTURE_TYPE_COMMAND_BUFFER_ALLOCATE_INFO, pNext := none,
                commandPool := pool, level := level, commandBufferCount := 1 }))
            { sType := VK_STRUCTURE_TYPE_COMMAND_BUFFER_BEGIN_INFO, pNext := none, flags := 0,
              pInheritanceInfo := none }) = VK_SUCCESS
      · simp only [ST_CHECK_RESULT_success _ h1, List.append_assoc, List.singleton_append,
          ST_CHECK_RESULT_success _ h2, DriverM.pure_apply, Prod.mk.injEq,
          Except.ok.injEq] at hret
        exact ⟨h1, h2, hret.1.symm, hret.2.symm⟩
      · simp only [ST_CHECK_RESULT_success _ h1, List.append_assoc, List.singleton_append,
          ST_CHECK_RESULT_failure _ h2, Prod.mk.injEq] at hret
        exact absurd hret.1 (by simp)
    · simp only [ST_CHECK_RESULT_failure _ h1, Prod.mk.injEq] at hret
      exact absurd hret.1 (by simp)
  · intro hhandle
    simp only [if_neg hhandle, DriverM.bind_apply, Driver.call_apply, List.append_assoc,
      List.singleton_append, List.cons_append, List.nil_append]
    refine ⟨?_, ?_, ?_, ?_⟩
    · intro h1
      simp only [ST_CHECK_RESULT_failure _ h1]
    · intro h1 h2
      simp only [ST_CHECK_RESULT_success _ h1, List.append_assoc, List.singleton_append,
        ST_CHECK_RESULT_failure _ h2]
    · intro h1 h2 h3
      simp only [ST_CHECK_RESULT_success _ h1, List.append_assoc, List.singleton_append,
        ST_CHECK_RESULT_success _ h2, List.cons_append, List.nil_append,
        ST_CHECK_RESULT_failure _ h3]
    · intro h1 h2 h3 h4
      simp only [ST_CHECK_RESULT_success _ h1, List.append_assoc, List.singleton_append,
        ST_CHECK_RESULT_success _ h2, List.cons_append, List.nil_append,
        ST_CHECK_RESULT_success _ h3, ST_CHECK_RESULT_failure _ h4]

theorem abort_on_non_success_witness :
    flushCommandBuffer timeoutDriver 1 5 2 3 [] =
      (Except.error "Fatal : VkResult is TIMEOUT",
        [.vkEndCommandBuffer 5,
         .vkCreateFence 1 { sType := 8, pNext := none, flags := 0 } none,
         .vkQueueSubmit 2 1
            (some [{ sType := 4, pNext := none, waitSemaphoreCount := 0, pWaitSemaphores := none,
                     pWaitDstStageMask := none, commandBufferCount := 1,
                     pCommandBuffers := some [5], signalSemaphoreCount := 0,
                     pSignalSemaphores := none }]) 7,
         .vkWaitForFences 1 1 (some [7]) 1 100000000000]) :=
  ((abort_on_non_success timeoutDriver 0 3 1 5 2 []).2.2.2 (by decide)).2.2.2
    (by decide) (by decide) (by decide) (by decide)

/-- C11, for every old layout, when the new layout is `SHADER_READ_ONLY_OPTIMAL`
the barrier recorded by `setImageLayout` never has an empty source access mask:
`srcAccessMask` is the old layout's table value when that value is non-zero and
`HOST_WRITE | TRANSFER_WRITE` otherwise (old layout `UNDEFINED` or an unhandled
layout), and `dstAccessMask` is `SHADER_READ`. -/
theorem setImageLayout_shader_read_target (driver : Driver) (cmdbuffer : VkCommandBuffer)
    (image : VkImage) (oldImageLayout : VkImageLayout)
    (subresourceRange : VkImageSubresourceRange) (srcStageMask dstStageMask : VkFlags)
    (issued : List DriverCall) :
    ∃ b : VkImageMemoryBarrier,
      (setImageLayout driver cmdbuffer image oldImageLayout
          VK_IMAGE_LAYOUT_SHADER_READ_ONLY_OPTIMAL subresourceRange
          srcStageMask dstStageMask issued).2 =
        issued ++ [.vkCmdPipelineBarrier cmdbuffer srcStageMask dstStageMask 0
          0 none 0 none 1 (some [b])] ∧
      b.srcAccessMask ≠ 0 ∧
      (oldLayoutAccessTable oldImageLayout ≠ 0 →
        b.srcAccessMask = oldLayoutAccessTable oldImageLayout) ∧
      (oldLayoutAccessTable oldImageLayout = 0 →
        b.srcAccessMask = VK_ACCESS_HOST_WRITE_BIT ||| VK_ACCESS_TRANSFER_WRITE_BIT) ∧
      (oldLayoutAccessTable oldImageLayout = 0 ↔
        oldImageLayout ∉ [VK_IMAGE_LAYOUT_PREINITIALIZED,
          VK_IMAGE_LAYOUT_COLOR_ATTACHMENT_OPTIMAL,
          VK_IMAGE_LAYOUT_DEPTH_STENCIL_ATTACHMENT_OPTIMAL, VK_IMAGE_LAYOUT_TRANSFER_SRC_OPTIMAL,
          VK_IMAGE_LAYOUT_TRANSFER_DST_OPTIMAL, VK_IMAGE_LAYOUT_SHADER_READ_ONLY_OPTIMAL]) ∧
      b.dstAccessMask = VK_ACCESS_SHADER_READ_BIT := by
  refine ⟨_, congrArg Prod.snd (setImageLayout_apply driver cmdbuffer image oldImageLayout
      VK_IMAGE_LAYOUT_SHADER_READ_ONLY_OPTIMAL subresourceRange srcStageMask dstStageMask issued),
    ?_, ?_, ?_, ?_, ?_⟩
  · rw [setImageLayoutBarrier_srcAccessMask]
    by_cases h : oldLayoutAccessTable oldImageLayout = 0
    · rw [if_pos ⟨rfl, h⟩]
      decide
    · rw [if_neg (fun hh => h hh.2)]
      exact h
  · intro h
    rw [setImageLayoutBarrier_srcAccessMask, if_neg (fun hh => h hh.2)]
  · intro h
    rw [setImageLayoutBarrier_srcAccessMask, if_pos ⟨rfl, h⟩]
  · simp only [List.mem_cons, List.mem_singleton, List.not_mem_nil, or_false, not_or]
    constructor
    · intro h
      refine ⟨?_, ?_, ?_, ?_, ?_, ?_⟩ <;>
      · intro heq
        rw [heq] at h
        revert h
        decide
    · rintro ⟨h1, h2, h3, h4, h5, h6⟩
      simp only [oldLayoutAccessTable, h1, h2, h3, h4, h5, h6, if_false, ite_self]
  · rw [setImageLayoutBarrier_dstAccessMask]
    decide

end utils

/-! ## `computeTexture::fromBuffer` -/

theorem ST_CHECK_RESULT_VK_SUCCESS (issued : List DriverCall) :
    ST_CHECK_RESULT VK_SUCCESS issued = (Except.ok (), issued) :=
  rfl

theorem DriverM.query_apply {α : Type} (answer : List DriverCall → α)
    (issued : List DriverCall) :
    DriverM.query answer issued = (Except.ok (answer issued), issued) :=
  rfl

theorem DriverM.lift_apply {α : Type} (r : Except String α) (issued : List DriverCall) :
    DriverM.lift r issued = (r, issued) :=
  rfl

theorem assert_true (diagnostic : String) (issued : List DriverCall) :
    assert true diagnostic issued = (Except.ok (), issued) :=
  rfl

namespace utils

/-- With a null `memTypeFound`, `getMemoryType` returns an index as soon as some
memory type matches. -/
theorem getMemoryType_null_of_matches
    (query : VkPhysicalDevice → VkPhysicalDeviceMemoryProperties)
    (physicalDevice : VkPhysicalDevice) (typeBits : Nat) (properties : VkFlags)
    (h : ∃ j, MemoryTypeMatches (query physicalDevice) typeBits properties j) :
    ∃ i, getMemoryType query physicalDevice typeBits properties none = Except.ok (i, none) := by
  obtain ⟨j, hj⟩ := h
  cases hloop : getMemoryTypeLoop (query physicalDevice) properties
      (query physicalDevice).memoryTypeCount 0 typeBits with
  | some k => exact ⟨k, by simp only [getMemoryType, hloop]⟩
  | none =>
    exact absurd hj ((getMemoryTypeLoop_eq_none_iff _ typeBits properties).1 hloop j)

/-- Against a driver whose calls all succeed `createCommandBuffer` returns the
handle the allocation wrote, after the allocation and the begin call. -/
theorem createCommandBuffer_of_success (driver : Driver) (level : VkCommandBufferLevel)
    (pool : VkCommandPool) (logicalDevice : VkDevice) (issued : List DriverCall)
    (hsuccess : ∀ earlier call, driver.result earlier call = VK_SUCCESS) :
    createCommandBuffer driver level pool logicalDevice issued =
      (Except.ok (driver.handle issued (.vkAllocateCommandBuffers logicalDevice
          (initializers.commandBufferAllocateInfo pool level 1))),
        issued ++ [.vkAllocateCommandBuffers logicalDevice
            (initializers.commandBufferAllocateInfo pool level 1),
          .vkBeginCommandBuffer
            (driver.handle issued (.vkAllocateCommandBuffers logicalDevice
              (initializers.commandBufferAllocateInfo pool level 1)))
            initializers.commandBufferBeginInfo]) := by
  simp only [createCommandBuffer, DriverM.bind_apply, Driver.call_apply, hsuccess,
    ST_CHECK_RESULT_VK_SUCCESS, List.append_assoc, List.singleton_append]
  rfl

end utils

namespace Texture

theorem recordedCommands_append (commandBuffer : VkCommandBuffer) (xs ys : List DriverCall) :
    recordedCommands commandBuffer (xs ++ ys) =
      recordedCommands commandBuffer xs ++ recordedCommands commandBuffer ys := by
  simp only [recordedCommands, List.filter_append]

/-- Against a driver whose calls all succeed `flushCommandBuffer` returns, and
none of the calls it issues records a command. -/
theorem flushCommandBuffer_of_success (driver : Driver) (logicalDevice : VkDevice)
    (commandBuffer : VkCommandBuffer) (queue : VkQueue) (pool : VkCommandPool)
    (issued : List DriverCall)
    (hsuccess : ∀ earlier call, driver.result earlier call = VK_SUCCESS) :
    ∃ calls, utils.flushCommandBuffer driver logicalDevice commandBuffer queue pool issued =
        (Except.ok (), issued ++ calls) ∧
      ∀ cb, recordedCommands cb calls = [] := by
  by_cases hnull : commandBuffer = VK_NULL_HANDLE
  · refine ⟨[], ?_, fun _ => rfl⟩
    simp only [utils.flushCommandBuffer, if_pos hnull, List.append_nil]
    rfl
  · refine ⟨?calls, ?hflush, ?hrecorded⟩
    case hflush =>
      simp only [utils.flushCommandBuffer, if_neg hnull, DriverM.bind_apply, Driver.call_apply,
        hsuccess, ST_CHECK_RESULT_VK_SUCCESS, DriverM.pure_apply, List.append_assoc,
        List.singleton_append, List.cons_append, List.nil_append]
      exact rfl
    case hrecorded =>
      intro cb
      rfl

end Texture

namespace Texture

/-- C12 amended: for every call of `fromBuffer` with a non-null `buffer` in which
all driver calls succeed and both memory types are found, the texture object ends
with `width = texWidth`, `height = texHeight`, `mipLevels = 1`, `imageLayout` the
requested layout, and a descriptor made of the object's sampler and view and the
requested layout; the commands recorded into the command buffer are, in order, a
barrier UNDEFINED -> TRANSFER_DST_OPTIMAL (source mask 0, destination mask
TRANSFER_WRITE), one buffer-to-image copy of extent (texWidth, texHeight, 1) at
offset 0, and a barrier TRANSFER_DST_OPTIMAL -> imageLayout with source mask
TRANSFER_WRITE. -/
theorem fromBuffer_result_state (driver : Driver) (queries : DriverQueries)
    (self : computeTexture) (physicalDevice : VkPhysicalDevice) (logicalDevice : VkDevice)
    (pool : VkCommandPool) (buffer : Option Nat) (bufferSize : VkDeviceSize)
    (format : VkFormat) (texWidth texHeight : Nat) (copyQueue : VkQueue) (filter : VkFilter)
    (imageUsageFlags : VkFlags) (imageLayout : VkImageLayout) (issued : List DriverCall)
    (hbuffer : buffer ≠ none)
    (hsuccess : ∀ earlier call, driver.result earlier call = VK_SUCCESS)
    (hstaging : ∀ earlier stagingBuffer, ∃ j,
      utils.MemoryTypeMatches (queries.vkGetPhysicalDeviceMemoryProperties physicalDevice)
        (queries.vkGetBufferMemoryRequirements earlier logicalDevice stagingBuffer).memoryTypeBits
        (VK_MEMORY_PROPERTY_HOST_VISIBLE_BIT ||| VK_MEMORY_PROPERTY_HOST_COHERENT_BIT) j)
    (himage : ∀ earlier image, ∃ j,
      utils.MemoryTypeMatches (queries.vkGetPhysicalDeviceMemoryProperties physicalDevice)
        (queries.vkGetImageMemoryRequirements earlier logicalDevice image).memoryTypeBits
        VK_MEMORY_PROPERTY_DEVICE_LOCAL_BIT j) :
    ∃ (texture : computeTexture) (calls : List DriverCall) (stagingBuffer : VkBuffer)
      (region : VkBufferImageCopy) (first second : VkImageMemoryBarrier),
      computeTexture.fromBuffer driver queries self physicalDevice logicalDevice pool buffer
          bufferSize format texWidth texHeight copyQueue filter imageUsageFlags imageLayout
          issued = (Except.ok texture, issued ++ calls) ∧
      texture.width = texWidth ∧ texture.height = texHeight ∧ texture.mipLevels = 1 ∧
      texture.imageLayout = imageLayout ∧
      texture.descriptor =
        { sampler := texture.sampler, imageView := texture.view, imageLayout := imageLayout } ∧
      recordedCommands
          (driver.handle issued (.vkAllocateCommandBuffers logicalDevice
            (initializers.commandBufferAllocateInfo pool VK_COMMAND_BUFFER_LEVEL_PRIMARY 1)))
          calls =
        [.vkCmdPipelineBarrier
            (driver.handle issued (.vkAllocateCommandBuffers logicalDevice
              (initializers.commandBufferAllocateInfo pool VK_COMMAND_BUFFER_LEVEL_PRIMARY 1)))
            VK_PIPELINE_STAGE_ALL_COMMANDS_BIT VK_PIPELINE_STAGE_ALL_COMMANDS_BIT 0
            0 none 0 none 1 (some [first]),
         .vkCmdCopyBufferToImage
            (driver.handle issued (.vkAllocateCommandBuffers logicalDevice
              (initializers.commandBufferAllocateInfo pool VK_COMMAND_BUFFER_LEVEL_PRIMARY 1)))
            stagingBuffer texture.image VK_IMAGE_LAYOUT_TRANSFER_DST_OPTIMAL 1 (some [region]),
         .vkCmdPipelineBarrier
            (driver.handle issued (.vkAllocateCommandBuffers logicalDevice
              (initializers.commandBufferAllocateInfo pool VK_COMMAND_BUFFER_LEVEL_PRIMARY 1)))
            VK_PIPELINE_STAGE_ALL_COMMANDS_BIT VK_PIPELINE_STAGE_ALL_COMMANDS_BIT 0
            0 none 0 none 1 (some [second])] ∧
      first.oldLayout = VK_IMAGE_LAYOUT_UNDEFINED ∧
      first.newLayout = VK_IMAGE_LAYOUT_TRANSFER_DST_OPTIMAL ∧
      first.image = texture.image ∧
      first.srcAccessMask = 0 ∧ first.dstAccessMask = VK_ACCESS_TRANSFER_WRITE_BIT ∧
      region.imageExtent = { width := texWidth, height := texHeight, depth := 1 } ∧
      region.bufferOffset = 0 ∧
      second.oldLayout = VK_IMAGE_LAYOUT_TRANSFER_DST_OPTIMAL ∧
      second.newLayout = imageLayout ∧
      second.image = texture.image ∧
      second.srcAccessMask = VK_ACCESS_TRANSFER_WRITE_BIT := by
  have hsome : buffer.isSome = true := by
    cases buffer with
    | none => exact absurd rfl hbuffer
    | some _ => rfl
  choose stagingIndex hstagingIndex using fun earlier stagingBuffer =>
    utils.getMemoryType_null_of_matches queries.vkGetPhysicalDeviceMemoryProperties physicalDevice
      _ _ (hstaging earlier stagingBuffer)
  choose imageIndex himageIndex using fun earlier image =>
    utils.getMemoryType_null_of_matches queries.vkGetPhysicalDeviceMemoryProperties physicalDevice
      _ _ (himage earlier image)
  choose flushCalls hflush hflushRecorded using fun commandBuffer earlier =>
    flushCommandBuffer_of_success driver logicalDevice commandBuffer copyQueue pool earlier hsuccess
  refine ⟨?texture, ?calls, ?stagingBuffer, ?region, ?first, ?second, ?hrun, ?hrest⟩
  case hrun =>
    simp only [computeTexture.fromBuffer, hsome, assert_true, DriverM.bind_apply,
      DriverM.pure_apply, Driver.call_apply, DriverM.query_apply, DriverM.lift_apply, hsuccess,
      ST_CHECK_RESULT_VK_SUCCESS, utils.createCommandBuffer_of_success _ _ _ _ _ hsuccess,
      hstagingIndex, himageIndex, utils.setImageLayout_apply, hflush, List.append_assoc,
      List.singleton_append, List.cons_append, List.nil_append]
    exact rfl
  case hrest =>
    refine ⟨rfl, rfl, rfl, rfl, rfl, ?hrecorded, ?hbarriers⟩
    case hrecorded =>
      simp only [recordedCommands] at hflushRecorded
      conv_lhs =>
        simp only [recordedCommands, List.filter_cons, List.filter_append, List.filter_nil,
          hflushRecorded, decide_True, if_true, Bool.false_eq_true, if_false, List.nil_append]
      exact rfl
    case hbarriers =>
      refine ⟨?_, ?_, ?_, ?_, ?_, ?_, ?_, ?_, ?_, ?_, ?_⟩
      · rw [utils.setImageLayoutBarrier_frame]
      · rw [utils.setImageLayoutBarrier_frame]
      · rw [utils.setImageLayoutBarrier_frame]
      · rw [utils.setImageLayoutBarrier_srcAccessMask]
        decide
      · rw [utils.setImageLayoutBarrier_dstAccessMask]
        decide
      · rfl
      · rfl
      · rw [utils.setImageLayoutBarrier_frame]
      · rw [utils.setImageLayoutBarrier_frame]
      · rw [utils.setImageLayoutBarrier_frame]
      · rw [utils.setImageLayoutBarrier_srcAccessMask, if_neg (fun h => absurd h.2 (by decide))]
        decide

theorem fromBuffer_result_state_witness :
    (some 99 : Option Nat) ≠ none ∧
    (∀ earlier call, utils.sampleDriver.result earlier call = VK_SUCCESS) ∧
    ∃ (texture : computeTexture) (calls : List DriverCall),
      computeTexture.fromBuffer utils.sampleDriver utils.sampleQueries utils.sampleTexture 0 1 3 (some 99) 64 37
          4 4 2 VK_FILTER_LINEAR VK_IMAGE_USAGE_SAMPLED_BIT
          VK_IMAGE_LAYOUT_SHADER_READ_ONLY_OPTIMAL [] = (Except.ok texture, [] ++ calls) ∧
      texture.width = 4 ∧ texture.height = 4 ∧ texture.mipLevels = 1 ∧
      texture.imageLayout = VK_IMAGE_LAYOUT_SHADER_READ_ONLY_OPTIMAL ∧
      texture.descriptor =
        { sampler := texture.sampler, imageView := texture.view,
          imageLayout := VK_IMAGE_LAYOUT_SHADER_READ_ONLY_OPTIMAL } ∧
      (recordedCommands 7 calls).length = 3 := by
  have hstaging : utils.MemoryTypeMatches (utils.sampleMemoryProperties 0) 7
      (VK_MEMORY_PROPERTY_HOST_VISIBLE_BIT ||| VK_MEMORY_PROPERTY_HOST_COHERENT_BIT) 1 := by
    decide
  have himage : utils.MemoryTypeMatches (utils.sampleMemoryProperties 0) 7
      VK_MEMORY_PROPERTY_DEVICE_LOCAL_BIT 0 := by
    decide
  refine ⟨by decide, fun _ _ => rfl, ?_⟩
  obtain ⟨texture, calls, stagingBuffer, region, first, second, hrun, hw, hh, hm, hl, hd, hrec,
    _⟩ := fromBuffer_result_state utils.sampleDriver utils.sampleQueries utils.sampleTexture 0 1 3 (some 99) 64 37
      4 4 2 VK_FILTER_LINEAR VK_IMAGE_USAGE_SAMPLED_BIT VK_IMAGE_LAYOUT_SHADER_READ_ONLY_OPTIMAL []
      (by decide) (fun _ _ => rfl) (fun _ _ => ⟨1, hstaging⟩) (fun _ _ => ⟨0, himage⟩)
  refine ⟨texture, calls, hrun, hw, hh, hm, hl, hd, ?_⟩
  have h7 : utils.sampleDriver.handle [] (.vkAllocateCommandBuffers 1
      (initializers.commandBufferAllocateInfo 3 VK_COMMAND_BUFFER_LEVEL_PRIMARY 1)) = 7 := rfl
  rw [h7] at hrec
  rw [hrec]
  rfl

/-- C12 as stated fails: against a driver whose calls all succeed and a device on
which both memory types are found, `fromBuffer` called with a null `buffer` stops
at `assert(buffer)`: it issues no driver call and returns no texture object. -/
theorem fromBuffer_null_buffer_aborts :
    (∀ earlier call, utils.sampleDriver.result earlier call = VK_SUCCESS) ∧
    (∀ earlier stagingBuffer, ∃ j,
      utils.MemoryTypeMatches (utils.sampleQueries.vkGetPhysicalDeviceMemoryProperties 0)
        (utils.sampleQueries.vkGetBufferMemoryRequirements earlier 1 stagingBuffer).memoryTypeBits
        (VK_MEMORY_PROPERTY_HOST_VISIBLE_BIT ||| VK_MEMORY_PROPERTY_HOST_COHERENT_BIT) j) ∧
    (∀ earlier image, ∃ j,
      utils.MemoryTypeMatches (utils.sampleQueries.vkGetPhysicalDeviceMemoryProperties 0)
        (utils.sampleQueries.vkGetImageMemoryRequirements earlier 1 image).memoryTypeBits
        VK_MEMORY_PROPERTY_DEVICE_LOCAL_BIT j) ∧
    computeTexture.fromBuffer utils.sampleDriver utils.sampleQueries utils.sampleTexture 0 1 3 none 64 37
        4 4 2 VK_FILTER_LINEAR VK_IMAGE_USAGE_SAMPLED_BIT
        VK_IMAGE_LAYOUT_SHADER_READ_ONLY_OPTIMAL [] =
      (Except.error "Assertion failed: buffer", []) ∧
    ¬ ∃ (texture : computeTexture) (calls : List DriverCall),
      computeTexture.fromBuffer utils.sampleDriver utils.sampleQueries utils.sampleTexture 0 1 3 none 64 37
          4 4 2 VK_FILTER_LINEAR VK_IMAGE_USAGE_SAMPLED_BIT
          VK_IMAGE_LAYOUT_SHADER_READ_ONLY_OPTIMAL [] = (Except.ok texture, calls) := by
  have hstaging : utils.MemoryTypeMatches (utils.sampleMemoryProperties 0) 7
      (VK_MEMORY_PROPERTY_HOST_VISIBLE_BIT ||| VK_MEMORY_PROPERTY_HOST_COHERENT_BIT) 1 := by
    decide
  have himage : utils.MemoryTypeMatches (utils.sampleMemoryProperties 0) 7
      VK_MEMORY_PROPERTY_DEVICE_LOCAL_BIT 0 := by
    decide
  refine ⟨fun _ _ => rfl, fun _ _ => ⟨1, hstaging⟩, fun _ _ => ⟨0, himage⟩, rfl, ?_⟩
  rintro ⟨texture, calls, h⟩
  have hrun : computeTexture.fromBuffer utils.sampleDriver utils.sampleQueries utils.sampleTexture 0 1 3 none 64 37
      4 4 2 VK_FILTER_LINEAR VK_IMAGE_USAGE_SAMPLED_BIT
      VK_IMAGE_LAYOUT_SHADER_READ_ONLY_OPTIMAL [] =
        (Except.error "Assertion failed: buffer", []) := rfl
  rw [hrun] at h
  simp at h

end Texture

end sourav
